import Mathlib

/-!
Verification of the adaptive interview-bot core: a shallow embedding of
`core/answer_evaluator.py`, `core/conversation_manager.py`,
`core/question_generator.py`, `database/models.py` and
`config/settings.py`, together with theorems settling the spec claims.

Modelling conventions:
* Texts are `List Char` (`Text`); Python `str.lower()`, `strip()`,
  `split()` and substring tests are embedded directly.
* Scores are rationals (`ℚ`); Python `round(x, 3)` is modelled by
  `round3` (round half up to three decimals).
* External collaborators (nltk tokenizers and stop words, sklearn
  TF-IDF cosine similarity, the optional rouge-score package, the Groq
  feedback/question generators, `random.choice`) are fields of
  environment records; a `none`/flag value models the exception paths
  the code catches.  Executable defaults are provided for concrete runs.
* Wall-clock fields (timestamps, durations) are not modelled; the
  database `answered_at` ordering is modelled by the insertion order of
  the answers table, which sqlite's autoincrement/CURRENT_TIMESTAMP
  insertion produces.
-/

namespace InterviewBot

abbrev Text := List Char

/-- `str.lower()` on a text. -/
def toLowerText (t : Text) : Text := t.map Char.toLower

/-- Python `str.strip()`: drop leading and trailing whitespace. -/
def stripText (t : Text) : Text :=
  ((t.dropWhile Char.isWhitespace).reverse.dropWhile Char.isWhitespace).reverse

/-- Python `b in a`: `pat` occurs contiguously inside `text`. -/
def containsSub (text pat : Text) : Bool := decide (pat <:+: text)

/-- `s2t s` converts a string literal to the `Text` representation. -/
def s2t (s : String) : Text := s.data

/-- Python `str.isalnum()` on a text: nonempty and all alphanumeric. -/
def isAlnumText (t : Text) : Bool := !t.isEmpty && t.all Char.isAlphanum

/-- Python `round(x, 3)` on a score (round half up to three decimals). -/
def round3 (q : ℚ) : ℚ := (⌊q * 1000 + 1/2⌋ : ℚ) / 1000

/-- Whitespace splitting, Python `str.split()`: maximal runs of
non-whitespace characters. -/
def splitWs : Text → List Text
  | [] => []
  | c :: rest =>
    if c.isWhitespace then splitWs rest
    else
      let tok := (c :: rest).takeWhile (fun d => !d.isWhitespace)
      tok :: splitWs (rest.dropWhile (fun d => !d.isWhitespace))
  termination_by t => t.length
  decreasing_by
    · simp [Nat.lt_succ_self]
    · exact Nat.lt_succ_of_le ((List.dropWhile_sublist _).length_le)

/-- Helper for `defaultWordTokenize`: split into maximal alphanumeric
runs, carrying the (reversed) run read so far. -/
def splitAlnumAux : Text → Text → List Text
  | [], acc => if acc.isEmpty then [] else [acc.reverse]
  | c :: rest, acc =>
    if c.isAlphanum then splitAlnumAux rest (c :: acc)
    else if acc.isEmpty then splitAlnumAux rest []
    else acc.reverse :: splitAlnumAux rest []

/-- Executable model of nltk `word_tokenize`: the maximal alphanumeric
runs of the text.  (The code filters tokens with `isalnum()` afterwards,
so punctuation tokens are irrelevant.) -/
def defaultWordTokenize (t : Text) : List Text := splitAlnumAux t []

/-- Executable model of nltk `sent_tokenize`: split at `.`, `!`, `?`,
keeping the nonempty stripped segments. -/
def defaultSentTokenize (t : Text) : List Text :=
  ((t.splitOnP (fun c => c = '.' || c = '!' || c = '?')).map stripText).filter
    (fun s => !s.isEmpty)

/-- A small model of the nltk English stop-word set (external corpus
data); only words the repository's texts exercise are listed. -/
def defaultStopWords (w : Text) : Bool :=
  [s2t "a", s2t "an", s2t "the", s2t "i", s2t "to", s2t "of", s2t "and",
   s2t "in", s2t "is", s2t "it", s2t "this", s2t "that", s2t "was",
   s2t "for", s2t "on", s2t "with", s2t "which", s2t "my"].contains w

/-- A regex word character (`\w`). -/
def isWordChar (c : Char) : Bool := c.isAlphanum || c = '_'

/-- A word boundary (`\b`) against an adjacent character (`none` = text
edge). -/
def boundaryAt : Option Char → Bool
  | none => true
  | some d => !isWordChar d

/-- Scan helper for `wordBoundaryOccurs`, carrying the previous
character. -/
def wbAux (phrase : Text) : Option Char → Text → Bool
  | _, [] => false
  | prev, c :: rest =>
    (boundaryAt prev && phrase.isPrefixOf (c :: rest) &&
      boundaryAt ((c :: rest).drop phrase.length).head?) ||
    wbAux phrase (some c) rest

/-- `wordBoundaryOccurs phrase text`: `phrase` occurs in `text` with a
word boundary (regex `\b`) on each side; models one alternative of a
`re.search` structure-indicator pattern applied case-insensitively. -/
def wordBoundaryOccurs (phrase text : Text) : Bool := wbAux phrase none text

/-! ## Data model (`§3`, from the dict shapes in the source) -/

/-- A question dict as built by `QuestionGenerator.generate_questions`
and consumed by the evaluator and the conversation manager.  Missing
dict keys (`question.get(...)`) are modelled by empty defaults. -/
structure Question where
  id : Nat
  db_id : Nat
  question : Text
  qtype : String
  difficulty : String
  expected_keywords : List Text
  evaluation_criteria : List Text
  sample_answer : Text
  deriving Repr, DecidableEq

/-- The `f1_metrics` dict of
`utils/evaluation_metrics.evaluate_answer_quality_metrics`. -/
structure F1Metrics where
  accuracy : ℚ
  f1_score : ℚ
  correlation : ℚ
  mean_prediction : ℚ
  mean_ground_truth : ℚ
  deriving Repr, DecidableEq

/-- The `nlp_metrics` dict of
`AnswerEvaluator._calculate_advanced_nlp_metrics`. -/
structure NlpMetrics where
  rouge1 : ℚ
  rouge2 : ℚ
  rougeL : ℚ
  bleu_score : ℚ
  f1_metrics : F1Metrics
  composite_nlp_score : ℚ
  user_vs_reference : ℚ
  performance_category : String
  deriving Repr, DecidableEq

/-- The evaluation dict of `AnswerEvaluator._create_evaluation_result`. -/
structure Evaluation where
  semantic_score : ℚ
  keyword_score : ℚ
  structure_score : ℚ
  overall_score : ℚ
  performance_level : String
  color : String
  feedback : Text
  strengths : List String
  improvements : List String
  nlp_metrics : Option NlpMetrics
  deriving Repr, DecidableEq

/-- External collaborators of the evaluator (nltk, sklearn, the
optional rouge-score package, the Groq client); `none` values model the
exceptions the code catches. -/
structure NlpEnv where
  word_tokenize : Text → List Text
  sent_tokenize : Text → List Text
  stop_words : Text → Bool
  /-- sklearn TF-IDF cosine similarity of (answer, reference); `none`
  models an exception (e.g. empty vocabulary). -/
  tfidf_cosine : Text → Text → Option ℚ
  /-- rouge-score package `score(reference, generated)` fmeasures
  (rouge1, rouge2, rougeL); `none` models package absence or error,
  which falls back to the simplified implementation. -/
  rouge_pkg : Text → Text → Option (ℚ × ℚ × ℚ)
  /-- Groq feedback generation; `none` models an API exception, which
  falls back to `_generate_fallback_feedback`. -/
  ai_feedback : Question → Text → Option Text
  /-- Models an exception inside `_calculate_advanced_nlp_metrics`,
  which returns the fixed default-metrics bundle. -/
  advanced_metrics_exception : Bool

/-- `Config.MIN_ANSWER_LENGTH` from `config/settings.py`. -/
def MIN_ANSWER_LENGTH : Nat := 10

/-! ## Answer evaluator (`core/answer_evaluator.py`) -/

/-- `AnswerEvaluator._evaluate_semantic_similarity`. -/
def evaluate_semantic_similarity (env : NlpEnv) (q : Question)
    (user_answer : Text) : ℚ :=
  let reference_elements :=
    (if q.sample_answer.isEmpty then [] else [q.sample_answer]) ++
    (if q.expected_keywords.isEmpty then []
     else [s2t "Key topics: " ++
       List.intercalate (s2t " ") q.expected_keywords]) ++
    (if q.evaluation_criteria.isEmpty then []
     else [s2t "Important aspects: " ++
       List.intercalate (s2t " ") q.evaluation_criteria]) ++
    [q.question]
  if reference_elements.isEmpty then 0.5
  else
    let reference_text := List.intercalate (s2t " ") reference_elements
    match env.tfidf_cosine user_answer reference_text with
    | some similarity => max 0.2 (min 1.0 (similarity + 0.3))
    | none => 0.5

/-- The keyword-match test of
`AnswerEvaluator._evaluate_keyword_coverage`: verbatim in the lowered
text, a retained token, or a substring of a retained token. -/
def keywordMatches (env : NlpEnv) (user_text : Text) (keyword : Text) :
    Bool :=
  let user_words := (env.word_tokenize user_text).filter
    (fun w => !env.stop_words w && isAlnumText w)
  let keyword_lower := toLowerText keyword
  containsSub user_text keyword_lower ||
  user_words.contains keyword_lower ||
  user_words.any (fun w => containsSub w keyword_lower)

/-- `AnswerEvaluator._evaluate_keyword_coverage`.  (Python builds
`user_words` as a set; only membership is used, so the list stands for
the set.) -/
def evaluate_keyword_coverage (env : NlpEnv) (q : Question)
    (user_answer : Text) : ℚ :=
  if q.expected_keywords.isEmpty then 0.7
  else
    let user_text := toLowerText user_answer
    let matched_keywords :=
      q.expected_keywords.countP (keywordMatches env user_text)
    let total_keywords := q.expected_keywords.length
    let coverage_score := (matched_keywords : ℚ) / total_keywords
    min 1.0 coverage_score

/-- The four `structure_indicators` word lists of
`AnswerEvaluator._evaluate_answer_structure` (each regex is an
alternation of these phrases between word boundaries). -/
def structure_indicators : List (List Text) :=
  [[s2t "first", s2t "firstly", s2t "second", s2t "secondly",
    s2t "third", s2t "thirdly", s2t "finally", s2t "lastly"],
   [s2t "however", s2t "therefore", s2t "moreover", s2t "furthermore",
    s2t "additionally"],
   [s2t "for example", s2t "such as", s2t "specifically",
    s2t "particularly"],
   [s2t "in conclusion", s2t "to summarize", s2t "overall"]]

/-- `AnswerEvaluator._evaluate_answer_structure`. -/
def evaluate_answer_structure (env : NlpEnv) (user_answer : Text) : ℚ :=
  let sentences := env.sent_tokenize user_answer
  let words := env.word_tokenize user_answer
  let sentence_part : ℚ :=
    if 3 ≤ sentences.length ∧ sentences.length ≤ 8 then 0.3
    else if 1 < sentences.length then 0.2 else 0
  let word_count := (words.filter isAlnumText).length
  let word_part : ℚ :=
    if 30 ≤ word_count ∧ word_count ≤ 200 then 0.3
    else if 20 ≤ word_count ∧ word_count ≤ 300 then 0.2 else 0
  let lower := toLowerText user_answer
  let indicator_part : ℚ :=
    (structure_indicators.countP
      (fun phrases => phrases.any (fun p => wordBoundaryOccurs p lower)))
      * 0.1
  min 1.0 (sentence_part + word_part + indicator_part)

/-- `EvaluationMetrics.calculate_rouge_scores` from
`utils/evaluation_metrics.py` (package path, else the simplified
implementation over lowercased whitespace word sets). -/
def calculate_rouge_scores (env : NlpEnv) (generated_text reference_text :
    Text) : ℚ × ℚ × ℚ :=
  match env.rouge_pkg reference_text generated_text with
  | some (r1, r2, rL) => (round3 r1, round3 r2, round3 rL)
  | none =>
    let generated_words := (splitWs (toLowerText generated_text)).dedup
    let reference_words := (splitWs (toLowerText reference_text)).dedup
    if reference_words.isEmpty then (0, 0, 0)
    else
      let overlap := reference_words.filter
        (fun w => generated_words.contains w)
      let rouge1 : ℚ := (overlap.length : ℚ) / reference_words.length
      (round3 rouge1, round3 (rouge1 * 0.8), round3 (rouge1 * 0.9))

/-- `EvaluationMetrics.calculate_bleu_score` (simplified
implementation in the repository). -/
def calculate_bleu_score (generated_text : Text)
    (reference_texts : List Text) : ℚ :=
  let generated_words := splitWs (toLowerText generated_text)
  if generated_words.isEmpty then 0
  else
    let precisions := reference_texts.filterMap (fun reference =>
      let reference_words := splitWs (toLowerText reference)
      if reference_words.isEmpty then none
      else some (((generated_words.countP
        (fun w => reference_words.contains w)) : ℚ) /
          generated_words.length))
    -- Python `max(precisions) if precisions else 0.0`; every precision
    -- is nonnegative, so a fold from 0 computes the same value.
    precisions.foldl max 0

/-- `EvaluationMetrics.evaluate_answer_quality_metrics`, specialised to
the singleton-list call the evaluator makes
(`[predicted_score], [reference_score]`): on a single binary pair,
sklearn accuracy and weighted F1 are equality indicators, and the
`len > 1` correlation guard yields 0. -/
def evaluate_answer_quality_metrics (predicted reference : ℚ) :
    F1Metrics :=
  let threshold : ℚ := 0.6
  let pred_binary : Nat := if threshold ≤ predicted then 1 else 0
  let true_binary : Nat := if threshold ≤ reference then 1 else 0
  let accuracy : ℚ := if pred_binary = true_binary then 1 else 0
  let f1 : ℚ := if pred_binary = true_binary then 1 else 0
  { accuracy := round3 accuracy
    f1_score := round3 f1
    correlation := round3 0
    mean_prediction := round3 predicted
    mean_ground_truth := round3 reference }

/-- `AnswerEvaluator._calculate_answer_quality_score`. -/
def calculate_answer_quality_score (env : NlpEnv) (user_answer : Text) :
    ℚ :=
  let word_count := (splitWs user_answer).length
  let sentence_count := (env.sent_tokenize user_answer).length
  let length_part : ℚ :=
    if 30 ≤ word_count ∧ word_count ≤ 200 then 0.3
    else if 20 ≤ word_count ∧ word_count ≤ 300 then 0.2 else 0
  let sentence_part : ℚ :=
    if 2 ≤ sentence_count ∧ sentence_count ≤ 8 then 0.3 else 0
  let unique_words := (splitWs (toLowerText user_answer)).dedup.length
  let diversity_part : ℚ :=
    if 1/2 < (unique_words : ℚ) / (max word_count 1) then 0.2 else 0
  let connecting_words := [s2t "however", s2t "therefore", s2t "moreover",
    s2t "furthermore", s2t "additionally"]
  let connect_part : ℚ :=
    if connecting_words.any
        (fun w => containsSub (toLowerText user_answer) w) then 0.2
    else 0
  min 1.0 (length_part + sentence_part + diversity_part + connect_part)

/-- `AnswerEvaluator._categorize_nlp_performance`. -/
def categorize_nlp_performance (composite_score : ℚ) : String :=
  if 0.8 ≤ composite_score then "Excellent"
  else if 0.6 ≤ composite_score then "Good"
  else if 0.4 ≤ composite_score then "Average"
  else "Needs Improvement"

/-- The fixed default-metrics bundle returned when
`_calculate_advanced_nlp_metrics` catches an exception. -/
def default_nlp_metrics : NlpMetrics :=
  { rouge1 := 0.5, rouge2 := 0.4, rougeL := 0.45
    bleu_score := 0.5
    f1_metrics :=
      { accuracy := 0.5, f1_score := 0.5, correlation := 0,
        mean_prediction := 0, mean_ground_truth := 0 }
    composite_nlp_score := 0.5
    user_vs_reference := 0.5
    performance_category := "Average" }

/-- `AnswerEvaluator._calculate_advanced_nlp_metrics`. -/
def calculate_advanced_nlp_metrics (env : NlpEnv) (q : Question)
    (user_answer : Text) : NlpMetrics :=
  if env.advanced_metrics_exception then default_nlp_metrics
  else
    let keyword_refs :=
      if q.expected_keywords.isEmpty ∧ q.evaluation_criteria.isEmpty
      then []
      else [s2t "A good answer should include: " ++
        List.intercalate (s2t ", ")
          (q.expected_keywords ++ q.evaluation_criteria) ++ s2t "."]
    let reference_texts :=
      (if q.sample_answer.isEmpty then [] else [q.sample_answer]) ++
        keyword_refs
    let reference_texts :=
      if reference_texts.isEmpty then [q.question] else reference_texts
    let primary_reference := reference_texts.headD []
    let rouge_scores :=
      calculate_rouge_scores env user_answer primary_reference
    let bleu_score := calculate_bleu_score user_answer reference_texts
    let predicted_score := calculate_answer_quality_score env user_answer
    let f1_metrics := evaluate_answer_quality_metrics predicted_score 0.8
    let composite_score :=
      rouge_scores.1 * 0.3 + rouge_scores.2.2 * 0.3 +
      bleu_score * 0.25 + f1_metrics.f1_score * 0.15
    { rouge1 := rouge_scores.1
      rouge2 := rouge_scores.2.1
      rougeL := rouge_scores.2.2
      bleu_score := round3 bleu_score
      f1_metrics := f1_metrics
      composite_nlp_score := round3 composite_score
      user_vs_reference := round3 composite_score
      performance_category := categorize_nlp_performance composite_score }

/-- `AnswerEvaluator._generate_fallback_feedback` (quotes around the
mentioned-keyword lists are joined with `, ` as in the source). -/
def generate_fallback_feedback (q : Question) (user_answer : Text) :
    Text :=
  let word_count := (splitWs user_answer).length
  let length_part :=
    if word_count < 20 then
      s2t "Consider providing more detail in your response."
    else if 150 < word_count then
      s2t "Try to be more concise while maintaining key points."
    else s2t "Good answer length."
  let keyword_parts :=
    if q.expected_keywords.isEmpty then []
    else
      let mentioned_keywords := q.expected_keywords.filter
        (fun k => containsSub (toLowerText user_answer) (toLowerText k))
      if mentioned_keywords.isEmpty then
        [s2t "Consider including these key concepts: " ++
          List.intercalate (s2t ", ") (q.expected_keywords.take 3) ++
          s2t "."]
      else
        [s2t "Great job mentioning: " ++
          List.intercalate (s2t ", ") mentioned_keywords ++ s2t "."]
  let structure_part :=
    if containsSub user_answer (s2t ". ") ||
        containsSub user_answer (s2t ":") then
      s2t "Good structure with clear points."
    else s2t "Try organizing your answer with clear, separate points."
  List.intercalate (s2t " ")
    ([length_part] ++ keyword_parts ++ [structure_part])

/-- `AnswerEvaluator._generate_ai_feedback`: the Groq call, with its
deterministic fallback on exception. -/
def generate_ai_feedback (env : NlpEnv) (q : Question)
    (user_answer : Text) : Text :=
  match env.ai_feedback q user_answer with
  | some feedback => feedback
  | none => generate_fallback_feedback q user_answer

/-- `AnswerEvaluator._identify_strengths`. -/
def identify_strengths (semantic_score keyword_score structure_score :
    ℚ) : List String :=
  let strengths :=
    (if 0.7 < semantic_score then ["Strong content relevance"] else []) ++
    (if 0.7 < keyword_score then ["Good use of technical terminology"]
     else []) ++
    (if 0.7 < structure_score then ["Well-organized response"] else [])
  if strengths.isEmpty then ["Shows understanding of the topic"]
  else strengths

/-- `AnswerEvaluator._identify_improvements`. -/
def identify_improvements (semantic_score keyword_score structure_score :
    ℚ) : List String :=
  let improvements :=
    (if semantic_score < 0.5 then ["Address the question more directly"]
     else []) ++
    (if keyword_score < 0.5 then ["Include more relevant technical terms"]
     else []) ++
    (if structure_score < 0.5 then
      ["Improve answer organization and flow"] else [])
  if improvements.isEmpty then ["Continue practicing to build confidence"]
  else improvements

/-- `AnswerEvaluator._create_evaluation_result`. -/
def create_evaluation_result (semantic_score keyword_score
    structure_score overall_score : ℚ) (feedback : Text)
    (nlp_metrics : Option NlpMetrics) : Evaluation :=
  let performance_level :=
    if 0.8 ≤ overall_score then "Excellent"
    else if 0.6 ≤ overall_score then "Good"
    else if 0.4 ≤ overall_score then "Fair"
    else "Needs Improvement"
  let color :=
    if 0.8 ≤ overall_score then "green"
    else if 0.6 ≤ overall_score then "blue"
    else if 0.4 ≤ overall_score then "orange"
    else "red"
  { semantic_score := round3 semantic_score
    keyword_score := round3 keyword_score
    structure_score := round3 structure_score
    overall_score := round3 overall_score
    performance_level := performance_level
    color := color
    feedback := feedback
    strengths :=
      identify_strengths semantic_score keyword_score structure_score
    improvements :=
      identify_improvements semantic_score keyword_score structure_score
    nlp_metrics := nlp_metrics }

/-- The fixed short-answer feedback message. -/
def short_answer_feedback : Text :=
  s2t "Answer is too short. Please provide a more detailed response."

/-- `AnswerEvaluator.evaluate_answer`. -/
def evaluate_answer (env : NlpEnv) (q : Question) (user_answer : Text) :
    Evaluation :=
  if (stripText user_answer).length < MIN_ANSWER_LENGTH then
    create_evaluation_result 0.1 0.1 0.1 0.1 short_answer_feedback none
  else
    let semantic_score := evaluate_semantic_similarity env q user_answer
    let keyword_score := evaluate_keyword_coverage env q user_answer
    let structure_score := evaluate_answer_structure env user_answer
    let nlp_metrics := calculate_advanced_nlp_metrics env q user_answer
    let ai_feedback := generate_ai_feedback env q user_answer
    let overall_score :=
      semantic_score * 0.3 + keyword_score * 0.25 +
      structure_score * 0.25 + nlp_metrics.composite_nlp_score * 0.2
    create_evaluation_result semantic_score keyword_score structure_score
      overall_score ai_feedback (some nlp_metrics)

/-! ## Session aggregation (`calculate_session_metrics`) -/

/-- The `performance_distribution` dict. -/
structure PerformanceDistribution where
  excellent : Nat
  good : Nat
  fair : Nat
  needs_improvement : Nat
  deriving Repr, DecidableEq

/-- The dict returned by `AnswerEvaluator.calculate_session_metrics`.
(The empty-list early return omits the average and distribution keys;
those fields are zeroed here.) -/
structure SessionMetrics where
  session_average : ℚ
  semantic_average : ℚ
  keyword_average : ℚ
  structure_average : ℚ
  strongest_area : String
  weakest_area : String
  total_questions : Nat
  performance_distribution : PerformanceDistribution
  deriving Repr, DecidableEq

/-- Python `max(scores, key=scores.get)` over an insertion-ordered
dict: the first key with the maximal value. -/
def argmaxFirst : List (String × ℚ) → String
  | [] => "None"
  | p :: rest =>
    (rest.foldl (fun best q => if best.2 < q.2 then q else best) p).1

/-- Python `min(scores, key=scores.get)`: the first key with the
minimal value. -/
def argminFirst : List (String × ℚ) → String
  | [] => "None"
  | p :: rest =>
    (rest.foldl (fun best q => if q.2 < best.2 then q else best) p).1

/-- `AnswerEvaluator.calculate_session_metrics`. -/
def calculate_session_metrics (evaluations : List Evaluation) :
    SessionMetrics :=
  if evaluations.isEmpty then
    { session_average := 0, semantic_average := 0, keyword_average := 0
      structure_average := 0, strongest_area := "None"
      weakest_area := "None", total_questions := 0
      performance_distribution :=
        { excellent := 0, good := 0, fair := 0, needs_improvement := 0 } }
  else
    let n : ℚ := evaluations.length
    let semantic_avg := (evaluations.map (·.semantic_score)).sum / n
    let keyword_avg := (evaluations.map (·.keyword_score)).sum / n
    let structure_avg := (evaluations.map (·.structure_score)).sum / n
    let overall_avg := (evaluations.map (·.overall_score)).sum / n
    let scores := [("Content Relevance", semantic_avg),
      ("Technical Knowledge", keyword_avg),
      ("Communication Structure", structure_avg)]
    { session_average := round3 overall_avg
      semantic_average := round3 semantic_avg
      keyword_average := round3 keyword_avg
      structure_average := round3 structure_avg
      strongest_area := argmaxFirst scores
      weakest_area := argminFirst scores
      total_questions := evaluations.length
      performance_distribution :=
        { excellent :=
            evaluations.countP (fun e => decide (0.8 ≤ e.overall_score))
          good := evaluations.countP (fun e =>
            decide (0.6 ≤ e.overall_score ∧ e.overall_score < 0.8))
          fair := evaluations.countP (fun e =>
            decide (0.4 ≤ e.overall_score ∧ e.overall_score < 0.6))
          needs_improvement :=
            evaluations.countP
              (fun e => decide (e.overall_score < 0.4)) } }

/-- Executable default environment: the embedded tokenizers, no
similarity signal, no rouge-score package, Groq unavailable (the
deterministic fallbacks run). -/
def defaultNlpEnv : NlpEnv :=
  { word_tokenize := defaultWordTokenize
    sent_tokenize := defaultSentTokenize
    stop_words := defaultStopWords
    tfidf_cosine := fun _ _ => none
    rouge_pkg := fun _ _ => none
    ai_feedback := fun _ _ => none
    advanced_metrics_exception := false }

/-! ## Persistence gateway (`database/models.py`)

Sqlite rows; autoincrement ids are modelled by per-table counters, and
each table list is kept in insertion (= id, = `CURRENT_TIMESTAMP`)
order, which is the order the restore queries rely on. -/

structure UserRow where
  id : Nat
  name : String
  email : String
  domain : String
  experience_level : String
  deriving Repr, DecidableEq

structure SessionRow where
  id : Nat
  user_id : Nat
  domain : String
  deriving Repr, DecidableEq

structure QuestionRow where
  id : Nat
  session_id : Nat
  question_text : Text
  question_type : String
  difficulty_level : String
  /-- Stored as a JSON string in sqlite; the json round trip is the
  identity on string lists, so the list is stored directly. -/
  expected_keywords : List Text
  deriving Repr, DecidableEq

structure AnswerRow where
  id : Nat
  question_id : Nat
  user_answer : Text
  semantic_score : ℚ
  keyword_score : ℚ
  structure_score : ℚ
  overall_score : ℚ
  feedback : Text
  /-- `answered_at`: insertion sequence number standing for the row's
  `CURRENT_TIMESTAMP`. -/
  answered_at : Nat
  deriving Repr, DecidableEq

/-- The sqlite database of `DatabaseManager`. -/
structure Db where
  users : List UserRow
  sessions : List SessionRow
  questions : List QuestionRow
  answers : List AnswerRow
  next_session_id : Nat
  next_question_id : Nat
  next_answer_id : Nat
  deriving Repr, DecidableEq

/-- `DatabaseManager.get_user`. -/
def Db.get_user (db : Db) (user_id : Nat) : Option UserRow :=
  db.users.find? (fun u => u.id = user_id)

/-- `DatabaseManager.create_session`: insert a row, return its id. -/
def Db.create_session (db : Db) (user_id : Nat) (domain : String) :
    Db × Nat :=
  ({ db with
      sessions := db.sessions ++
        [{ id := db.next_session_id, user_id := user_id,
           domain := domain }]
      next_session_id := db.next_session_id + 1 },
   db.next_session_id)

/-- `DatabaseManager.save_question`. -/
def Db.save_question (db : Db) (session_id : Nat) (question_text : Text)
    (question_type difficulty_level : String)
    (expected_keywords : List Text) : Db × Nat :=
  ({ db with
      questions := db.questions ++
        [{ id := db.next_question_id, session_id := session_id,
           question_text := question_text,
           question_type := question_type,
           difficulty_level := difficulty_level,
           expected_keywords := expected_keywords }]
      next_question_id := db.next_question_id + 1 },
   db.next_question_id)

/-- `DatabaseManager.save_answer`. -/
def Db.save_answer (db : Db) (question_id : Nat) (user_answer : Text)
    (semantic_score keyword_score structure_score overall_score : ℚ)
    (feedback : Text) : Db × Nat :=
  ({ db with
      answers := db.answers ++
        [{ id := db.next_answer_id, question_id := question_id,
           user_answer := user_answer, semantic_score := semantic_score,
           keyword_score := keyword_score,
           structure_score := structure_score,
           overall_score := overall_score, feedback := feedback,
           answered_at := db.next_answer_id }]
      next_answer_id := db.next_answer_id + 1 },
   db.next_answer_id)

/-! ## Question generator (`core/question_generator.py`) -/

/-- The dict produced by `QuestionGenerator._generate_single_question`
(Groq plus `random.choice` fallback templates: an oracle of the
generator environment). -/
structure QuestionData where
  question : Text
  keywords : List Text
  criteria : List Text
  sample_answer : Text
  deriving Repr, DecidableEq

/-- External collaborators of the question generator: `random.choice`
of a question type per loop index, and the Groq/template body of
`_generate_single_question` (domain, type, difficulty, job
description). -/
structure GenEnv where
  choose_qtype : Nat → List String → String
  gen_single_question : String → String → String → Text → QuestionData

/-- `QuestionGenerator._get_difficulty_level`. -/
def get_difficulty_level (experience_level : String)
    (question_number : Nat) : String :=
  let difficulties :=
    if experience_level = "Beginner" then ["Easy", "Easy", "Medium"]
    else if experience_level = "Intermediate" then
      ["Easy", "Medium", "Medium", "Hard"]
    else if experience_level = "Advanced" then
      ["Medium", "Medium", "Hard", "Hard"]
    else ["Medium"]
  difficulties.getD (question_number % difficulties.length) "Medium"

/-- `QuestionGenerator.generate_questions`: one question dict per loop
index `i < num_questions`. -/
def generate_questions (genv : GenEnv) (domain experience_level : String)
    (job_description : Text) (num_questions : Nat)
    (question_types : Option (List String)) : List Question :=
  let question_types :=
    question_types.getD ["technical", "behavioral", "situational"]
  (List.range num_questions).map (fun i =>
    let question_type := genv.choose_qtype i question_types
    let difficulty := get_difficulty_level experience_level i
    let question_data :=
      genv.gen_single_question domain question_type difficulty
        job_description
    { id := i + 1
      db_id := 0
      question := question_data.question
      qtype := question_type
      difficulty := difficulty
      expected_keywords := question_data.keywords
      evaluation_criteria := question_data.criteria
      sample_answer := question_data.sample_answer })

/-- `QuestionGenerator.generate_followup_question`. -/
def generate_followup_question (original_question : Text)
    (_user_answer : Text) (score : ℚ) : Option Text :=
  if score < 0.5 then
    some (s2t "Could you elaborate more on your answer to: " ++
      original_question ++ s2t "?")
  else if 0.8 < score then
    some (s2t "That is a great answer! Can you share another example or go deeper into the technical details?")
  else none

/-! ## Session state machine (`core/conversation_manager.py`)

Timestamps (`start_time`, `pause_time`, `end_time`, durations) are
wall-clock values and are not modelled; no claim depends on them. -/

/-- The `session_preferences` dict. -/
structure SessionPreferences where
  num_questions : Nat
  question_types : List String
  difficulty_progression : Bool
  deriving Repr, DecidableEq

/-- An entry of the in-memory `answers` list of a session. -/
structure AnswerRecord where
  question_id : Nat
  answer : Text
  deriving Repr, DecidableEq

/-- The transient session dict held in `current_sessions`. -/
structure SessionState where
  session_id : Nat
  user_id : Nat
  domain : String
  questions : List Question
  current_question_index : Nat
  answers : List AnswerRecord
  evaluations : List Evaluation
  session_preferences : SessionPreferences
  status : String
  deriving Repr, DecidableEq

/-- The `ConversationManager`'s mutable state: the database plus the
in-memory session registry (an insertion-ordered id-keyed map). -/
structure Manager where
  db : Db
  current_sessions : List (Nat × SessionState)
  deriving Repr, DecidableEq

/-- `session_id in self.current_sessions` /
`self.current_sessions[session_id]`. -/
def Manager.lookup_session (m : Manager) (session_id : Nat) :
    Option SessionState :=
  (m.current_sessions.find? (fun p => p.1 = session_id)).map (·.2)

/-- Key-preserving map update, `self.current_sessions[sid] = state`. -/
def upsertSession (l : List (Nat × SessionState)) (session_id : Nat)
    (s : SessionState) : List (Nat × SessionState) :=
  match l with
  | [] => [(session_id, s)]
  | p :: rest =>
    if p.1 = session_id then (session_id, s) :: rest
    else p :: upsertSession rest session_id s

def Manager.set_session (m : Manager) (session_id : Nat)
    (s : SessionState) : Manager :=
  { m with
      current_sessions := upsertSession m.current_sessions session_id s }

/-- Result of `start_interview_session`. -/
inductive StartResult where
  | error (message : String)
  | success (session_id : Nat) (first_question : Option Question)
      (total_questions : Nat) (user_name experience_level : String)
  deriving Repr, DecidableEq

/-- `ConversationManager.start_interview_session`.  Note the order in
the source: the session row is inserted (`db.create_session`) before
the user lookup, so the user-not-found error path leaves a persisted
session row behind. -/
def start_interview_session (genv : GenEnv) (m : Manager)
    (user_id : Nat) (domain : String) (job_description : Text)
    (session_preferences : Option SessionPreferences) :
    StartResult × Manager :=
  let prefs := session_preferences.getD
    { num_questions := 5
      question_types := ["technical", "behavioral", "situational"]
      difficulty_progression := true }
  let (db1, session_id) := m.db.create_session user_id domain
  match db1.get_user user_id with
  | none => (.error "User not found", { m with db := db1 })
  | some user_profile =>
    let questions := generate_questions genv domain
      user_profile.experience_level job_description prefs.num_questions
      (some prefs.question_types)
    -- save each question row, recording the row id as `db_id`
    let (db2, questions) := questions.foldl
      (fun (acc : Db × List Question) question =>
        let (db', qid) := acc.1.save_question session_id
          question.question question.qtype question.difficulty
          question.expected_keywords
        (db', acc.2 ++ [{ question with db_id := qid }]))
      (db1, [])
    let session_state : SessionState :=
      { session_id := session_id
        user_id := user_id
        domain := domain
        questions := questions
        current_question_index := 0
        answers := []
        evaluations := []
        session_preferences := prefs
        status := "active" }
    let m' := (Manager.set_session { m with db := db2 }
      session_id session_state)
    (.success session_id questions.head? questions.length
      user_profile.name user_profile.experience_level, m')

/-- The `progress` dict of `process_answer` / `resume_session`. -/
structure Progress where
  current : Nat
  total : Nat
  percentage : ℚ
  deriving Repr, DecidableEq

/-- The session-completion summary of `_complete_session` (wall-clock
duration and the narrative feedback/recommendation texts omitted; no
claim touches them). -/
structure SessionSummary where
  total_questions : Nat
  average_score : ℚ
  strongest_area : String
  weakest_area : String
  performance_level : String
  detailed_metrics : SessionMetrics
  deriving Repr, DecidableEq

/-- Result of `process_answer`. -/
inductive ProcessResult where
  | error (message : String)
  | question_answered (evaluation : Evaluation)
      (next_question : Question) (followup_question : Option Text)
      (progress : Progress)
  | session_completed (summary : SessionSummary)
  deriving Repr, DecidableEq

/-- `ConversationManager._get_overall_performance_level`. -/
def get_overall_performance_level (score : ℚ) : String :=
  if 0.8 ≤ score then "Excellent"
  else if 0.6 ≤ score then "Good"
  else if 0.4 ≤ score then "Fair"
  else "Needs Improvement"

/-- `ConversationManager._complete_session`.  In the source the session
is always present when this is called; the missing-session branch
models the `KeyError` Python would raise. -/
def complete_session (m : Manager) (session_id : Nat) :
    ProcessResult × Manager :=
  match m.lookup_session session_id with
  | none => (.error "Session not found", m)
  | some session =>
    let session_metrics := calculate_session_metrics session.evaluations
    let session' := { session with status := "completed" }
    (.session_completed
      { total_questions := session.questions.length
        average_score := session_metrics.session_average
        strongest_area := session_metrics.strongest_area
        weakest_area := session_metrics.weakest_area
        performance_level :=
          get_overall_performance_level session_metrics.session_average
        detailed_metrics := session_metrics },
     m.set_session session_id session')

/-- `ConversationManager.process_answer`. -/
def process_answer (nenv : NlpEnv) (m : Manager) (session_id : Nat)
    (answer : Text) : ProcessResult × Manager :=
  match m.lookup_session session_id with
  | none => (.error "Session not found", m)
  | some session =>
    let current_index := session.current_question_index
    if h : current_index < session.questions.length then
      let current_question := session.questions.get ⟨current_index, h⟩
      let evaluation := evaluate_answer nenv current_question answer
      let (db', _) := m.db.save_answer current_question.db_id answer
        evaluation.semantic_score evaluation.keyword_score
        evaluation.structure_score evaluation.overall_score
        evaluation.feedback
      let session' := { session with
        answers := session.answers ++
          [{ question_id := current_question.id, answer := answer }]
        evaluations := session.evaluations ++ [evaluation]
        current_question_index := current_index + 1 }
      let m' := (Manager.set_session { m with db := db' }
        session_id session')
      if h' : current_index + 1 < session.questions.length then
        let next_question := session.questions.get ⟨current_index + 1, h'⟩
        let followup_question :=
          if evaluation.overall_score < 0.5 then
            generate_followup_question current_question.question answer
              evaluation.overall_score
          else none
        (.question_answered evaluation next_question followup_question
          { current := current_index + 1
            total := session.questions.length
            percentage := ((current_index + 1 : ℚ) /
              session.questions.length) * 100 },
         m')
      else complete_session m' session_id
    else (.error "No more questions in session", m)

/-- `ConversationManager._restore_session_from_db`: rebuild a session
from durable rows.  The queries: session joined with its user; the
session's questions ordered by id; and one row per (question, answer)
join pair ordered by `answered_at`, whose count becomes the cursor. -/
def restore_session_from_db (db : Db) (session_id : Nat) :
    Option SessionState :=
  match db.sessions.find? (fun s => s.id = session_id) with
  | none => none
  | some session_row =>
    match db.get_user session_row.user_id with
    | none => none   -- the user JOIN produced no row
    | some _user =>
      let question_rows :=
        db.questions.filter (fun q => q.session_id = session_id)
      if question_rows.isEmpty then none
      else
        let questions := question_rows.map (fun row =>
          { id := row.id
            db_id := row.id
            question := row.question_text
            qtype := row.question_type
            difficulty := row.difficulty_level
            expected_keywords := row.expected_keywords
            -- keys absent from the restored dict
            evaluation_criteria := []
            sample_answer := [] : Question })
        let answered_questions := db.answers.flatMap (fun a =>
          (question_rows.filter (fun q => q.id = a.question_id)).map
            (fun q => q.id))
        let current_question_index := answered_questions.length
        some
          { session_id := session_id
            user_id := session_row.user_id
            domain := session_row.domain
            questions := questions
            current_question_index := current_question_index
            answers := []       -- not restored (documented limitation)
            evaluations := []   -- not restored (documented limitation)
            session_preferences :=
              { num_questions := questions.length
                question_types := (questions.map (·.qtype)).dedup
                difficulty_progression := true }
            status :=
              if current_question_index < questions.length then "active"
              else "completed" }

/-- `ConversationManager.get_session_status`: the in-memory session if
present, else the database restore (cached on success); `none` models
the Python `None` return — absence, not an exception. -/
def get_session_status (m : Manager) (session_id : Nat) :
    Option SessionState × Manager :=
  match m.lookup_session session_id with
  | some session => (some session, m)
  | none =>
    match restore_session_from_db m.db session_id with
    | some session_data =>
      (some session_data, m.set_session session_id session_data)
    | none => (none, m)

/-- Result of `pause_session`. -/
inductive PauseResult where
  | error (message : String)
  | success (message : String)
  deriving Repr, DecidableEq

/-- `ConversationManager.pause_session`.  The source sets
`status = "paused"` for any in-memory session, with no check of the
current lifecycle state. -/
def pause_session (m : Manager) (session_id : Nat) :
    PauseResult × Manager :=
  match m.lookup_session session_id with
  | none => (.error "Session not found", m)
  | some session =>
    (.success "Session paused",
     m.set_session session_id { session with status := "paused" })

/-- Result of `resume_session`. -/
inductive ResumeResult where
  | error (message : String)
  | success (current_question : Question) (progress_current : Nat)
      (progress_total : Nat)
  deriving Repr, DecidableEq

/-- `ConversationManager.resume_session`.  Note the source mutates
`status` to `"active"` before checking whether a question remains, so
the exhausted-questions error path still changes the status. -/
def resume_session (m : Manager) (session_id : Nat) :
    ResumeResult × Manager :=
  match m.lookup_session session_id with
  | none => (.error "Session not found", m)
  | some session =>
    if session.status ≠ "paused" then
      (.error "Session is not paused", m)
    else
      let session' := { session with status := "active" }
      let m' := m.set_session session_id session'
      let current_index := session.current_question_index
      if h : current_index < session.questions.length then
        (.success (session.questions.get ⟨current_index, h⟩)
          current_index session.questions.length, m')
      else (.error "No more questions in session", m')

/-- The `early_summary` dict of `end_session_early` (named
`partial_summary` in the source). -/
structure EarlySummary where
  questions_answered : Nat
  total_questions : Nat
  average_score : ℚ
  deriving Repr, DecidableEq

/-- Result of `end_session_early`. -/
inductive EndEarlyResult where
  | error (message : String)
  | session_ended_early (summary : EarlySummary) (message : String)
  | session_cancelled (message : String)
  deriving Repr, DecidableEq

/-- `ConversationManager.end_session_early`. -/
def end_session_early (m : Manager) (session_id : Nat) :
    EndEarlyResult × Manager :=
  match m.lookup_session session_id with
  | none => (.error "Session not found", m)
  | some session =>
    if session.evaluations.isEmpty then
      (.session_cancelled "Session cancelled with no answers recorded.",
       m.set_session session_id { session with status := "cancelled" })
    else
      let early_metrics := calculate_session_metrics session.evaluations
      (.session_ended_early
        { questions_answered := session.evaluations.length
          total_questions := session.questions.length
          average_score := early_metrics.session_average }
        "Session ended early. You can review your progress and continue practicing.",
       m.set_session session_id { session with status := "ended_early" })

/-! ## Helper lemmas -/

theorem round3_mono {a b : ℚ} (h : a ≤ b) : round3 a ≤ round3 b := by
  unfold round3
  have h1 : (⌊a * 1000 + 1/2⌋ : ℤ) ≤ ⌊b * 1000 + 1/2⌋ :=
    Int.floor_le_floor (by linarith)
  have h2 : ((⌊a * 1000 + 1/2⌋ : ℤ) : ℚ) ≤ ((⌊b * 1000 + 1/2⌋ : ℤ) : ℚ) :=
    by exact_mod_cast h1
  linarith

theorem round3_nonneg {a : ℚ} (h : 0 ≤ a) : 0 ≤ round3 a := by
  have h0 : round3 0 = 0 := by norm_num [round3]
  simpa [h0] using round3_mono h

theorem round3_le_one {a : ℚ} (h : a ≤ 1) : round3 a ≤ 1 := by
  have h1 : round3 1 = 1 := by norm_num [round3]
  simpa [h1] using round3_mono h

theorem round3_mem_unit {a : ℚ} (h0 : 0 ≤ a) (h1 : a ≤ 1) :
    0 ≤ round3 a ∧ round3 a ≤ 1 :=
  ⟨round3_nonneg h0, round3_le_one h1⟩

theorem round3_err (a : ℚ) : |round3 a - a| ≤ 1/2000 := by
  unfold round3
  have hle : (⌊a * 1000 + 1/2⌋ : ℚ) ≤ a * 1000 + 1/2 := Int.floor_le _
  have hlt : a * 1000 + 1/2 - 1 < (⌊a * 1000 + 1/2⌋ : ℚ) :=
    Int.sub_one_lt_floor _
  rw [abs_le]
  constructor <;> [linarith; linarith]

theorem upsertSession_lookup_self (l : List (Nat × SessionState))
    (sid : Nat) (s : SessionState) :
    ((upsertSession l sid s).find? (fun p => p.1 = sid)).map (·.2) =
      some s := by
  induction l with
  | nil => simp [upsertSession]
  | cons p rest ih =>
    by_cases h : p.1 = sid
    · simp [upsertSession, h]
    · simp [upsertSession, h, List.find?_cons, ih]

theorem lookup_set_session_self (m : Manager) (sid : Nat)
    (s : SessionState) :
    (m.set_session sid s).lookup_session sid = some s := by
  simp [Manager.set_session, Manager.lookup_session,
    upsertSession_lookup_self]

theorem mem_upsertSession {l : List (Nat × SessionState)} {sid : Nat}
    {s : SessionState} {q : Nat × SessionState}
    (h : q ∈ upsertSession l sid s) : q.2 = s ∨ q ∈ l := by
  induction l with
  | nil => simp [upsertSession] at h; simp [h]
  | cons p rest ih =>
    by_cases hp : p.1 = sid
    · simp [upsertSession, hp] at h
      rcases h with h | h
      · left; simp [h]
      · right; simp [h]
    · simp [upsertSession, hp] at h
      rcases h with h | h
      · right; simp [h]
      · rcases ih h with h' | h'
        · left; exact h'
        · right; simp [h']

theorem lookup_session_mem {m : Manager} {sid : Nat} {s : SessionState}
    (h : m.lookup_session sid = some s) :
    ∃ k, (k, s) ∈ m.current_sessions := by
  unfold Manager.lookup_session at h
  rcases Option.map_eq_some'.mp h with ⟨p, hp, hps⟩
  have hmem := List.mem_of_find?_eq_some hp
  exact ⟨p.1, by rwa [show (p.1, s) = p by rw [← hps]] ⟩

/-- Compute `round3 q` from integer bounds on `q * 1000 + 1/2`. -/
theorem round3_spec (q : ℚ) (z : ℤ) (h1 : (z : ℚ) ≤ q * 1000 + 1/2)
    (h2 : q * 1000 + 1/2 < z + 1) : round3 q = (z : ℚ) / 1000 := by
  unfold round3
  congr 2
  exact_mod_cast Int.floor_eq_iff.mpr ⟨h1, h2⟩

theorem round3_pointone : round3 0.1 = 0.1 := by
  rw [show (0.1 : ℚ) = 1/10 by norm_num]
  rw [round3_spec (1/10) 100 (by norm_num) (by norm_num)]
  norm_num

/-! ## Claim theorems -/

/-- C4: for every question and every answer whose trimmed length is
below `MIN_ANSWER_LENGTH` (10), `evaluate_answer` short-circuits: all
four component scores are exactly 0.1, the feedback is the fixed
short-answer message, no NLP-metrics field is present, and no further
scoring computation occurs (the result does not depend on the external
collaborators at all). -/
theorem evaluate_answer_short_answer_floor (env : NlpEnv) (q : Question)
    (user_answer : Text)
    (h : (stripText user_answer).length < MIN_ANSWER_LENGTH) :
    (evaluate_answer env q user_answer).semantic_score = 0.1 ∧
    (evaluate_answer env q user_answer).keyword_score = 0.1 ∧
    (evaluate_answer env q user_answer).structure_score = 0.1 ∧
    (evaluate_answer env q user_answer).overall_score = 0.1 ∧
    (evaluate_answer env q user_answer).feedback =
      short_answer_feedback ∧
    (evaluate_answer env q user_answer).nlp_metrics = none ∧
    ∀ env' : NlpEnv,
      evaluate_answer env' q user_answer =
        evaluate_answer env q user_answer := by
  rw [evaluate_answer, if_pos h]
  refine ⟨?_, ?_, ?_, ?_, ?_, ?_, ?_⟩
  · simp [create_evaluation_result, round3_pointone]
  · simp [create_evaluation_result, round3_pointone]
  · simp [create_evaluation_result, round3_pointone]
  · simp [create_evaluation_result, round3_pointone]
  · simp [create_evaluation_result]
  · simp [create_evaluation_result]
  · intro env'
    rw [evaluate_answer, if_pos h]

/-- C4 witness. -/
theorem evaluate_answer_short_answer_floor_witness :
    ((stripText (s2t "  short  ")).length < MIN_ANSWER_LENGTH) ∧
    (evaluate_answer defaultNlpEnv
      { id := 1, db_id := 1, question := s2t "What is REST?",
        qtype := "technical", difficulty := "Easy",
        expected_keywords := [s2t "REST"], evaluation_criteria := [],
        sample_answer := [] }
      (s2t "  short  ")).overall_score = 0.1 :=
  ⟨by decide,
   (evaluate_answer_short_answer_floor defaultNlpEnv _ _
     (by decide)).2.2.2.1⟩

/-- C10: when `start_interview_session` is called with a user id that
does not exist, it returns the user-not-found error, but only after the
new session row has been inserted into the durable sessions table —
the session-creation write precedes the user-existence check. -/
theorem start_user_not_found_persists_session (genv : GenEnv)
    (m : Manager) (user_id : Nat) (domain : String)
    (job_description : Text) (prefs : Option SessionPreferences)
    (h : m.db.get_user user_id = none) :
    (start_interview_session genv m user_id domain job_description
      prefs).1 = .error "User not found" ∧
    (start_interview_session genv m user_id domain job_description
      prefs).2.db.sessions =
      m.db.sessions ++
        [{ id := m.db.next_session_id, user_id := user_id,
           domain := domain }] := by
  have h' : m.db.users.find? (fun u => u.id = user_id) = none := by
    simpa [Db.get_user] using h
  constructor <;>
    simp [start_interview_session, Db.create_session, Db.get_user, h']

/-- A database with no rows, for concrete runs. -/
def emptyDb : Db :=
  { users := [], sessions := [], questions := [], answers := [],
    next_session_id := 1, next_question_id := 1, next_answer_id := 1 }

/-- A manager with an empty database and no transient sessions. -/
def emptyManager : Manager := { db := emptyDb, current_sessions := [] }

/-- A trivial concrete question-generator environment. -/
def trivialGenEnv : GenEnv :=
  { choose_qtype := fun _ _ => "technical"
    gen_single_question := fun _ _ _ _ =>
      { question := [], keywords := [], criteria := [],
        sample_answer := [] } }

/-- C10 witness. -/
theorem start_user_not_found_persists_session_witness :
    emptyManager.db.get_user 7 = none ∧
    (start_interview_session trivialGenEnv emptyManager 7 "Data Science"
      [] none).1 = .error "User not found" :=
  ⟨rfl,
   (start_user_not_found_persists_session trivialGenEnv emptyManager 7
     "Data Science" [] none rfl).1⟩

/-- C7: for every resolvable session, `end_session_early` with zero
recorded evaluations transitions the session to `cancelled` with no
summary, and with at least one evaluation transitions it to
`ended_early` with a partial summary whose average equals the rounded
arithmetic mean of the recorded overall scores (within 1/2000), along
with the answered/total counts. -/
theorem end_session_early_spec (m : Manager) (session_id : Nat)
    (s : SessionState) (hs : m.lookup_session session_id = some s) :
    (s.evaluations = [] →
      (end_session_early m session_id).1 = .session_cancelled
        "Session cancelled with no answers recorded." ∧
      ((end_session_early m session_id).2.lookup_session
        session_id).map (·.status) = some "cancelled") ∧
    (s.evaluations ≠ [] →
      (end_session_early m session_id).1 = .session_ended_early
        { questions_answered := s.evaluations.length
          total_questions := s.questions.length
          average_score := round3
            ((s.evaluations.map (·.overall_score)).sum /
              s.evaluations.length) }
        "Session ended early. You can review your progress and continue practicing." ∧
      |round3 ((s.evaluations.map (·.overall_score)).sum /
          s.evaluations.length) -
        (s.evaluations.map (·.overall_score)).sum /
          s.evaluations.length| ≤ 1/2000 ∧
      ((end_session_early m session_id).2.lookup_session
        session_id).map (·.status) = some "ended_early") := by
  constructor
  · intro he
    have hie : s.evaluations.isEmpty := by simp [he]
    refine ⟨?_, ?_⟩
    · simp [end_session_early, hs, hie]
    · simp [end_session_early, hs, hie, lookup_set_session_self]
  · intro hne
    have hie : ¬s.evaluations.isEmpty := by simpa using hne
    refine ⟨?_, round3_err _, ?_⟩
    · simp [end_session_early, hs, hie, calculate_session_metrics]
    · simp [end_session_early, hs, hie, lookup_set_session_self]

/-- A minimal question value for concrete runs. -/
def qDummy : Question :=
  { id := 1, db_id := 1, question := [], qtype := "technical",
    difficulty := "Easy", expected_keywords := [],
    evaluation_criteria := [], sample_answer := [] }

/-- A concrete evaluation with all scores 1/2, for concrete runs. -/
def evalHalf : Evaluation :=
  { semantic_score := 1/2, keyword_score := 1/2, structure_score := 1/2,
    overall_score := 1/2, performance_level := "Fair",
    color := "orange", feedback := [], strengths := [],
    improvements := [], nlp_metrics := none }

/-- Default preferences value for concrete sessions. -/
def prefsDefault : SessionPreferences :=
  { num_questions := 5
    question_types := ["technical", "behavioral", "situational"]
    difficulty_progression := true }

/-- A session that has answered its single question once. -/
def sessOneAnswered : SessionState :=
  { session_id := 1, user_id := 1, domain := "Software Engineering",
    questions := [qDummy], current_question_index := 1,
    answers := [{ question_id := 1, answer := [] }],
    evaluations := [evalHalf], session_preferences := prefsDefault,
    status := "active" }

def mgrOneAnswered : Manager :=
  { db := emptyDb, current_sessions := [(1, sessOneAnswered)] }

/-- C7 witness. -/
theorem end_session_early_spec_witness :
    mgrOneAnswered.lookup_session 1 = some sessOneAnswered ∧
    (end_session_early mgrOneAnswered 1).1 = .session_ended_early
      { questions_answered := sessOneAnswered.evaluations.length
        total_questions := sessOneAnswered.questions.length
        average_score := round3
          ((sessOneAnswered.evaluations.map (·.overall_score)).sum /
            sessOneAnswered.evaluations.length) }
      "Session ended early. You can review your progress and continue practicing." :=
  ⟨rfl,
   ((end_session_early_spec mgrOneAnswered 1 sessOneAnswered rfl).2
     (by simp [sessOneAnswered])).1⟩

/-- A registered user row, for concrete runs. -/
def aliceRow : UserRow :=
  { id := 1, name := "Alice", email := "alice",
    domain := "Software Engineering", experience_level := "Beginner" }

/-- A manager whose database knows exactly the user `aliceRow`. -/
def mgrWithAlice : Manager :=
  { db := { emptyDb with users := [aliceRow] }, current_sessions := [] }

/-- The zero-question preferences of the C9 scenario. -/
def prefsZero : SessionPreferences :=
  { num_questions := 0, question_types := ["technical"],
    difficulty_progression := true }

/-- C9 (code slip): starting a session with preferences requesting zero
questions returns a success result whose transient session is `active`
with an empty question list — neither a validation rejection nor an
immediately `completed` session. -/
theorem start_zero_questions_active_empty :
    (start_interview_session trivialGenEnv mgrWithAlice 1
      "Software Engineering" [] (some prefsZero)).1 =
      .success 1 none 0 "Alice" "Beginner" ∧
    ((start_interview_session trivialGenEnv mgrWithAlice 1
      "Software Engineering" [] (some prefsZero)).2.lookup_session
        1).map (fun s => (s.status, s.questions.length)) =
      some ("active", 0) :=
  ⟨rfl, rfl⟩

/-- C6 counterexample: `pause_session` on a session whose status is
`completed` (not `active`) succeeds and overwrites the status with
`paused`, instead of failing with an invalid-state error. -/
theorem pause_succeeds_on_completed_session :
    ({ db := emptyDb,
       current_sessions :=
        [(1, { sessOneAnswered with status := "completed" })] } :
      Manager).lookup_session 1 =
        some { sessOneAnswered with status := "completed" } ∧
    (pause_session
      { db := emptyDb,
        current_sessions :=
          [(1, { sessOneAnswered with status := "completed" })] } 1).1 =
      .success "Session paused" ∧
    ((pause_session
      { db := emptyDb,
        current_sessions :=
          [(1, { sessOneAnswered with status := "completed" })] }
      1).2.lookup_session 1).map (·.status) = some "paused" :=
  ⟨rfl, rfl, rfl⟩

/-- C6 amended: `pause_session` succeeds for any in-memory session
regardless of its lifecycle state (the source has no active-state
check) and sets the status to `paused`; `resume_session` fails with the
invalid-state error and leaves the manager unchanged when the session
is not `paused`, and from `paused` (with an unanswered question
remaining) returns the current question and progress and sets the
status back to `active`. -/
theorem pause_resume_behavior (m : Manager) (session_id : Nat)
    (s : SessionState) (hs : m.lookup_session session_id = some s) :
    ((pause_session m session_id).1 = .success "Session paused" ∧
     ((pause_session m session_id).2.lookup_session session_id).map
       (·.status) = some "paused") ∧
    (s.status ≠ "paused" →
      (resume_session m session_id).1 = .error "Session is not paused" ∧
      (resume_session m session_id).2 = m) ∧
    (s.status = "paused" →
      ∀ h : s.current_question_index < s.questions.length,
        (resume_session m session_id).1 = .success
          (s.questions.get ⟨s.current_question_index, h⟩)
          s.current_question_index s.questions.length ∧
        ((resume_session m session_id).2.lookup_session
          session_id).map (·.status) = some "active") := by
  refine ⟨⟨?_, ?_⟩, ?_, ?_⟩
  · simp [pause_session, hs]
  · simp [pause_session, hs, lookup_set_session_self]
  · intro hstat
    constructor <;> simp [resume_session, hs, hstat]
  · intro hstat h
    constructor
    · simp [resume_session, hs, hstat, h]
    · simp [resume_session, hs, hstat, h, lookup_set_session_self]

/-- A paused session with its single question unanswered. -/
def sessPaused : SessionState :=
  { session_id := 1, user_id := 1, domain := "Software Engineering",
    questions := [qDummy], current_question_index := 0, answers := [],
    evaluations := [], session_preferences := prefsDefault,
    status := "paused" }

def mgrPaused : Manager :=
  { db := emptyDb, current_sessions := [(1, sessPaused)] }

/-- C6 witness. -/
theorem pause_resume_behavior_witness :
    mgrPaused.lookup_session 1 = some sessPaused ∧
    ((resume_session mgrPaused 1).1 = .success
      (sessPaused.questions.get ⟨0, by decide⟩) 0 1 ∧
     ((resume_session mgrPaused 1).2.lookup_session 1).map (·.status) =
       some "active") :=
  ⟨rfl,
   (pause_resume_behavior mgrPaused 1 sessPaused rfl).2.2 rfl
     (by decide)⟩

/-- The claimed session invariant: the answers sequence length equals
the cursor, and the cursor is at most the question count. -/
def SessionInv (s : SessionState) : Prop :=
  s.answers.length = s.current_question_index ∧
  s.current_question_index ≤ s.questions.length

/-- All sessions held in transient storage satisfy `SessionInv`. -/
def ManagerInv (m : Manager) : Prop :=
  ∀ p ∈ m.current_sessions, SessionInv p.2

theorem managerInv_set_session {m₀ : Manager}
    (hm : ∀ p ∈ m₀.current_sessions, SessionInv p.2) {s : SessionState}
    (hs : SessionInv s) (sid : Nat) :
    ManagerInv (m₀.set_session sid s) := by
  intro p hp
  rcases mem_upsertSession hp with h | h
  · rw [h]; exact hs
  · exact hm p h

/-- Durable rows of a 1-question session answered once. -/
def srowOne : SessionRow :=
  { id := 1, user_id := 1, domain := "Software Engineering" }

def qrowOne : QuestionRow :=
  { id := 1, session_id := 1, question_text := [],
    question_type := "technical", difficulty_level := "Easy",
    expected_keywords := [] }

def arowOne : AnswerRow :=
  { id := 1, question_id := 1, user_answer := [],
    semantic_score := 1/2, keyword_score := 1/2,
    structure_score := 1/2, overall_score := 1/2, feedback := [],
    answered_at := 1 }

/-- A database holding one session of one question with one persisted
answer — the durable image of a 1-question session answered once. -/
def dbOneAnswered : Db :=
  { users := [aliceRow]
    sessions := [srowOne]
    questions := [qrowOne]
    answers := [arowOne]
    next_session_id := 2, next_question_id := 2, next_answer_id := 2 }

/-- C2 counterexample: after transient-state loss, restoring the
1-question-once-answered session via `get_session_status` yields a
state whose answers list is empty while its cursor is 1 — the claimed
`len(answers) == cursor` invariant fails on the restored state. -/
theorem restore_breaks_answers_cursor_invariant :
    ((get_session_status { db := dbOneAnswered, current_sessions := [] }
        1).1).map
      (fun s => (s.answers.length, s.current_question_index,
        decide (s.answers.length = s.current_question_index))) =
      some (0, 1, false) := rfl

/-- C2 amended: every state reached through the transient operations
(start, processAnswer, pause, resume, endEarly) satisfies
`len(answers) == cursor ∧ cursor ≤ len(questions)`; a session restored
from durable storage instead carries an empty answers list with cursor
equal to the persisted-answer count, so the equality fails after a
restore with at least one persisted answer. -/
theorem transient_ops_preserve_answers_cursor_invariant
    (genv : GenEnv) (nenv : NlpEnv) (m : Manager) (user_id : Nat)
    (domain : String) (job_description : Text)
    (prefs : Option SessionPreferences) (session_id : Nat)
    (answer : Text) (hm : ManagerInv m) :
    ManagerInv (start_interview_session genv m user_id domain
      job_description prefs).2 ∧
    ManagerInv (process_answer nenv m session_id answer).2 ∧
    ManagerInv (pause_session m session_id).2 ∧
    ManagerInv (resume_session m session_id).2 ∧
    ManagerInv (end_session_early m session_id).2 := by
  refine ⟨?_, ?_, ?_, ?_, ?_⟩
  · unfold start_interview_session
    dsimp only
    split
    · exact hm
    · intro p hp
      rcases mem_upsertSession hp with hh | hh
      · rw [hh]; exact ⟨rfl, Nat.zero_le _⟩
      · exact hm p hh
  · unfold process_answer
    split
    · exact hm
    · rename_i s hlook
      rcases lookup_session_mem hlook with ⟨k, hk⟩
      have hsinv := hm (k, s) hk
      dsimp only
      split
      · rename_i h
        have hs' : SessionInv
            { s with
              answers := s.answers ++
                [{ question_id :=
                    (s.questions.get ⟨s.current_question_index, h⟩).id,
                   answer := answer }]
              evaluations := s.evaluations ++
                [evaluate_answer nenv
                  (s.questions.get ⟨s.current_question_index, h⟩)
                  answer]
              current_question_index :=
                s.current_question_index + 1 } :=
          ⟨by simpa using hsinv.1, h⟩
        split
        · intro p hp
          rcases mem_upsertSession hp with hh | hh
          · rw [hh]; exact hs'
          · exact hm p hh
        · unfold complete_session
          rw [lookup_set_session_self]
          dsimp only
          intro p hp
          rcases mem_upsertSession hp with hh | hh
          · rw [hh]; exact ⟨hs'.1, hs'.2⟩
          · rcases mem_upsertSession hh with hh2 | hh2
            · rw [hh2]; exact hs'
            · exact hm p hh2
      · exact hm
  · unfold pause_session
    split
    · exact hm
    · rename_i s hlook
      rcases lookup_session_mem hlook with ⟨k, hk⟩
      have hsinv := hm (k, s) hk
      intro p hp
      rcases mem_upsertSession hp with hh | hh
      · rw [hh]; exact ⟨hsinv.1, hsinv.2⟩
      · exact hm p hh
  · unfold resume_session
    split
    · exact hm
    · rename_i s hlook
      rcases lookup_session_mem hlook with ⟨k, hk⟩
      have hsinv := hm (k, s) hk
      dsimp only
      split
      · exact hm
      · split <;>
          (intro p hp
           rcases mem_upsertSession hp with hh | hh
           · rw [hh]; exact ⟨hsinv.1, hsinv.2⟩
           · exact hm p hh)
  · unfold end_session_early
    split
    · exact hm
    · rename_i s hlook
      rcases lookup_session_mem hlook with ⟨k, hk⟩
      have hsinv := hm (k, s) hk
      split <;>
        (intro p hp
         rcases mem_upsertSession hp with hh | hh
         · rw [hh]; exact ⟨hsinv.1, hsinv.2⟩
         · exact hm p hh)

/-- C2 amended witness. -/
theorem transient_ops_preserve_answers_cursor_invariant_witness :
    ManagerInv emptyManager ∧
    (ManagerInv (start_interview_session trivialGenEnv emptyManager 1
      "Software Engineering" [] none).2 ∧
     ManagerInv (process_answer defaultNlpEnv emptyManager 1 []).2 ∧
     ManagerInv (pause_session emptyManager 1).2 ∧
     ManagerInv (resume_session emptyManager 1).2 ∧
     ManagerInv (end_session_early emptyManager 1).2) := by
  have hm : ManagerInv emptyManager := by
    intro p hp
    simp [emptyManager] at hp
  exact ⟨hm,
    transient_ops_preserve_answers_cursor_invariant trivialGenEnv
      defaultNlpEnv emptyManager 1 "Software Engineering" [] none 1 []
      hm⟩

theorem filter_id_length_eq (qrows : List QuestionRow)
    (hnodup : (qrows.map (·.id)).Nodup) (x : Nat) :
    ((qrows.filter (fun q => q.id = x)).map (·.id)).length =
      if x ∈ qrows.map (·.id) then 1 else 0 := by
  rw [List.length_map]
  induction qrows with
  | nil => simp
  | cons q t ih =>
    have hnd : (t.map (·.id)).Nodup := by
      simpa using List.Nodup.of_cons (by simpa using hnodup)
    by_cases hqx : q.id = x
    · subst hqx
      have hxt : q.id ∉ t.map (·.id) := by
        have h2 : ¬ (q.id ∈ t.map (·.id)) ∧ (t.map (·.id)).Nodup := by
          simpa using hnodup
        exact h2.1
      have hzero : (t.filter (fun q' => q'.id = q.id)).length = 0 := by
        rw [List.length_eq_zero, List.filter_eq_nil_iff]
        intro a ha
        simp only [decide_eq_true_eq]
        intro hcon
        exact hxt (by
          simpa [← hcon] using List.mem_map_of_mem (·.id) ha)
      simp [List.filter_cons, hzero]
    · have ih' := ih hnd
      have hmm : (x ∈ (q :: t).map (·.id)) ↔ (x ∈ t.map (·.id)) := by
        simp [Ne.symm hqx]
      simp only [List.filter_cons, decide_eq_true_eq, hqx, if_false,
        ite_false]
      rw [ih', if_congr hmm rfl rfl]

theorem length_flatMap_eq_sum (l : List AnswerRow)
    (f : AnswerRow → List Nat) :
    (l.flatMap f).length = (l.map (fun a => (f a).length)).sum := by
  induction l with
  | nil => simp
  | cons a t ih => simp [List.flatMap_cons, ih]

theorem sum_indicator_eq_filter_length (ids : List Nat)
    (l : List AnswerRow) :
    ((l.map (fun a => if a.question_id ∈ ids then 1 else 0)).sum : Nat) =
      (l.filter (fun a => decide (a.question_id ∈ ids))).length := by
  induction l with
  | nil => simp
  | cons a t ih =>
    by_cases h : a.question_id ∈ ids <;>
      simp [h, ih, List.filter_cons, Nat.add_comm]

/-- C3: for a session whose transient state is lost, whose durable rows
are present (session row, its user, a nonempty ordered question list
with distinct ids) and whose persisted answers are exactly one per
first K questions, `get_session_status` reconciles to a session with
cursor K and status `active` iff `K < Q` (else `completed`); and when
the session row or its question rows are absent, it returns `none`
rather than raising. -/
theorem reconciliation_cursor_status (m : Manager)
    (session_id K : Nat)
    (hmem : m.lookup_session session_id = none) :
    (∀ (srow : SessionRow) (u : UserRow) (qrows : List QuestionRow),
      m.db.sessions.find? (fun s => s.id = session_id) = some srow →
      m.db.get_user srow.user_id = some u →
      m.db.questions.filter (fun q => q.session_id = session_id) =
        qrows →
      qrows ≠ [] → (qrows.map (·.id)).Nodup → K ≤ qrows.length →
      (m.db.answers.filter
        (fun a => decide (a.question_id ∈ qrows.map (·.id)))).map
          (·.question_id) = (qrows.take K).map (·.id) →
      ∃ s, (get_session_status m session_id).1 = some s ∧
        s.current_question_index = K ∧
        s.questions.length = qrows.length ∧
        s.answers = [] ∧ s.evaluations = [] ∧
        s.status =
          (if K < qrows.length then "active" else "completed")) ∧
    (m.db.sessions.find? (fun s => s.id = session_id) = none →
      (get_session_status m session_id).1 = none) ∧
    (∀ srow : SessionRow,
      m.db.sessions.find? (fun s => s.id = session_id) = some srow →
      m.db.questions.filter (fun q => q.session_id = session_id) =
        [] →
      (get_session_status m session_id).1 = none) := by
  refine ⟨?_, ?_, ?_⟩
  · intro srow u qrows hrow huser hqr hqne hnodup hK hans
    have hne : qrows.isEmpty = false := by
      simpa [List.isEmpty_iff] using hqne
    have hcursor :
        (m.db.answers.flatMap (fun a =>
          ((qrows.filter (fun q => q.id = a.question_id)).map
            (·.id)))).length = K := by
      rw [length_flatMap_eq_sum]
      have hmap : (m.db.answers.map (fun a =>
          ((qrows.filter (fun q => q.id = a.question_id)).map
            (·.id)).length)) =
          (m.db.answers.map (fun a =>
            if a.question_id ∈ qrows.map (·.id) then 1 else 0)) := by
        exact List.map_congr_left (fun a _ =>
          filter_id_length_eq qrows hnodup a.question_id)
      rw [hmap, sum_indicator_eq_filter_length]
      have := congrArg List.length hans
      simp only [List.length_map] at this
      rw [this, List.length_take, Nat.min_eq_left hK]
    rcases hres : restore_session_from_db m.db session_id with _ | s
    · exfalso
      simp [restore_session_from_db, hrow, huser, hqr, hne] at hres
    · have hget : (get_session_status m session_id).1 = some s := by
        simp [get_session_status, hmem, hres]
      simp only [restore_session_from_db, hrow, huser, hqr, hne,
        Bool.false_eq_true, if_false, Option.some.injEq] at hres
      refine ⟨s, hget, ?_, ?_, ?_, ?_, ?_⟩ <;> rw [← hres]
      · simpa using hcursor
      · simp
      · dsimp only
        rw [hcursor, List.length_map]
  · intro hrow
    simp [get_session_status, hmem, restore_session_from_db, hrow]
  · intro srow hrow hqr
    rcases hu : m.db.get_user srow.user_id with _ | u <;>
      simp [get_session_status, hmem, restore_session_from_db, hrow,
        hqr, hu]

/-- C3 witness. -/
theorem reconciliation_cursor_status_witness :
    ∃ s, (get_session_status
        { db := dbOneAnswered, current_sessions := [] } 1).1 = some s ∧
      s.current_question_index = 1 ∧
      s.questions.length = [qrowOne].length ∧
      s.answers = [] ∧ s.evaluations = [] ∧
      s.status =
        (if 1 < [qrowOne].length then "active" else "completed") :=
  (reconciliation_cursor_status
      { db := dbOneAnswered, current_sessions := [] } 1 1 rfl).1
    srowOne aliceRow [qrowOne] rfl rfl rfl (by simp) (by simp)
    (by simp) rfl

theorem splitAlnumAux_infix :
    ∀ (l acc t : Text), t ∈ splitAlnumAux l acc →
      t <:+: (acc.reverse ++ l) := by
  intro l
  induction l with
  | nil =>
    intro acc t ht
    unfold splitAlnumAux at ht
    by_cases hacc : acc.isEmpty = true
    · rw [if_pos hacc] at ht
      cases ht
    · rw [if_neg hacc] at ht
      rw [List.mem_singleton.mp ht, List.append_nil]
  | cons c rest ih =>
    intro acc t ht
    unfold splitAlnumAux at ht
    by_cases hal : c.isAlphanum = true
    · rw [if_pos hal] at ht
      have h1 := ih (c :: acc) t ht
      rwa [List.reverse_cons, List.append_assoc, List.singleton_append]
        at h1
    · rw [if_neg hal] at ht
      by_cases hacc : acc.isEmpty = true
      · rw [if_pos hacc] at ht
        have h1 := ih [] t ht
        simp only [List.reverse_nil, List.nil_append] at h1
        have hacc' : acc = [] := by simpa [List.isEmpty_iff] using hacc
        rw [hacc']
        simp only [List.reverse_nil, List.nil_append]
        exact h1.trans (List.suffix_cons c rest).isInfix
      · rw [if_neg hacc] at ht
        rcases List.mem_cons.mp ht with ht' | ht'
        · rw [ht']
          exact (List.prefix_append _ _).isInfix
        · have h1 := ih [] t ht'
          simp only [List.reverse_nil, List.nil_append] at h1
          exact h1.trans
            ((List.suffix_cons c rest).trans
              (List.suffix_append _ _)).isInfix

/-- Tokens of the embedded word tokenizer are contiguous substrings of
the input — the property of real tokenizers the monotonicity argument
rests on. -/
theorem defaultWordTokenize_infix (t w : Text)
    (h : w ∈ defaultWordTokenize t) : w <:+: t := by
  have := splitAlnumAux_infix t [] w h
  simpa using this

theorem keywordMatches_infix (env : NlpEnv) (user_text k : Text)
    (htok : ∀ t w, w ∈ env.word_tokenize t → w <:+: t)
    (h : keywordMatches env user_text k = true) :
    toLowerText k <:+: user_text := by
  unfold keywordMatches at h
  simp only [Bool.or_eq_true] at h
  rcases h with (h | h) | h
  · exact of_decide_eq_true h
  · have hmem : toLowerText k ∈
        (env.word_tokenize user_text).filter
          (fun w => !env.stop_words w && isAlnumText w) := by
      simpa using h
    exact htok user_text _ (List.mem_of_mem_filter hmem)
  · simp only [List.any_eq_true] at h
    rcases h with ⟨w, hw, hcw⟩
    exact (of_decide_eq_true hcw).trans
      (htok user_text w (List.mem_of_mem_filter hw))

/-- C8: keyword coverage is monotone in keyword presence — appending
an exact occurrence of one of the expected keywords to the answer text
never decreases the keyword score, for any tokenizer whose tokens are
contiguous substrings of its input. -/
theorem keyword_coverage_monotone_append (env : NlpEnv) (q : Question)
    (user_answer kw : Text)
    (htok : ∀ t w, w ∈ env.word_tokenize t → w <:+: t)
    (hk : kw ∈ q.expected_keywords) :
    evaluate_keyword_coverage env q user_answer ≤
      evaluate_keyword_coverage env q (user_answer ++ kw) := by
  have hne : q.expected_keywords.isEmpty = false := by
    simpa [List.isEmpty_iff] using List.ne_nil_of_mem hk
  unfold evaluate_keyword_coverage
  simp only [hne, Bool.false_eq_true, if_false]
  have hcount :
      q.expected_keywords.countP
        (keywordMatches env (toLowerText user_answer)) ≤
      q.expected_keywords.countP
        (keywordMatches env (toLowerText (user_answer ++ kw))) := by
    apply List.countP_mono_left
    intro k _ hmatch
    have hinf := keywordMatches_infix env _ k htok hmatch
    have hlow : toLowerText (user_answer ++ kw) =
        toLowerText user_answer ++ toLowerText kw := by
      simp [toLowerText]
    have hinf' : toLowerText k <:+: toLowerText (user_answer ++ kw) := by
      rw [hlow]
      exact hinf.trans (List.prefix_append _ _).isInfix
    unfold keywordMatches
    simp only [Bool.or_eq_true]
    exact Or.inl (Or.inl (decide_eq_true hinf'))
  have htotal : (0 : ℚ) < q.expected_keywords.length := by
    have : q.expected_keywords ≠ [] := by
      intro hcon; rw [hcon] at hk; cases hk
    have : 0 < q.expected_keywords.length := List.length_pos.mpr this
    exact_mod_cast this
  have hdiv :
      (q.expected_keywords.countP
          (keywordMatches env (toLowerText user_answer)) : ℚ) /
        q.expected_keywords.length ≤
      (q.expected_keywords.countP
          (keywordMatches env (toLowerText (user_answer ++ kw))) : ℚ) /
        q.expected_keywords.length := by
    apply div_le_div_of_nonneg_right ?_ htotal.le
    exact_mod_cast hcount
  exact min_le_min (le_refl _) hdiv

/-- A question expecting the keywords `api` and `rest`. -/
def qKeywords : Question :=
  { id := 1, db_id := 1, question := s2t "Explain REST APIs.",
    qtype := "technical", difficulty := "Easy",
    expected_keywords := [s2t "api", s2t "rest"],
    evaluation_criteria := [], sample_answer := [] }

/-- C8 witness. -/
theorem keyword_coverage_monotone_append_witness :
    (s2t "api") ∈ qKeywords.expected_keywords ∧
    evaluate_keyword_coverage defaultNlpEnv qKeywords
        (s2t "I used rest endpoints") ≤
      evaluate_keyword_coverage defaultNlpEnv qKeywords
        (s2t "I used rest endpoints" ++ s2t "api") :=
  ⟨by decide,
   keyword_coverage_monotone_append defaultNlpEnv qKeywords
     (s2t "I used rest endpoints") (s2t "api")
     (fun t w hw => defaultWordTokenize_infix t w hw) (by decide)⟩

/-- The rouge-score package returns fmeasures in `[0,1]` (a property
of the external library, assumed of the environment). -/
def NlpEnv.rouge_bounded (env : NlpEnv) : Prop :=
  ∀ r g x y z, env.rouge_pkg r g = some (x, y, z) →
    0 ≤ x ∧ x ≤ 1 ∧ 0 ≤ y ∧ y ≤ 1 ∧ 0 ≤ z ∧ z ≤ 1

theorem clamp_similarity_bounds (x : ℚ) :
    0 ≤ max 0.2 (min 1.0 (x + 0.3)) ∧
    max 0.2 (min 1.0 (x + 0.3)) ≤ 1 :=
  ⟨le_trans (by norm_num) (le_max_left 0.2 _),
   max_le (by norm_num) (le_trans (min_le_left _ _) (by norm_num))⟩

theorem evaluate_semantic_similarity_bounds (env : NlpEnv)
    (q : Question) (user_answer : Text) :
    0 ≤ evaluate_semantic_similarity env q user_answer ∧
    evaluate_semantic_similarity env q user_answer ≤ 1 := by
  unfold evaluate_semantic_similarity
  repeat' split
  all_goals
    constructor <;>
      (simp only [List.nil_append, List.singleton_append,
        List.cons_append, List.isEmpty_cons, Bool.false_eq_true,
        if_false]
       split <;> norm_num)

theorem evaluate_keyword_coverage_bounds (env : NlpEnv) (q : Question)
    (user_answer : Text) :
    0 ≤ evaluate_keyword_coverage env q user_answer ∧
    evaluate_keyword_coverage env q user_answer ≤ 1 := by
  unfold evaluate_keyword_coverage
  by_cases h : q.expected_keywords.isEmpty = true
  · rw [if_pos h]; norm_num
  · rw [if_neg h]
    refine ⟨le_min (by norm_num)
        (div_nonneg (by positivity) (by positivity)),
      le_trans (min_le_left _ _) (by norm_num)⟩

theorem evaluate_answer_structure_bounds (env : NlpEnv)
    (user_answer : Text) :
    0 ≤ evaluate_answer_structure env user_answer ∧
    evaluate_answer_structure env user_answer ≤ 1 := by
  unfold evaluate_answer_structure
  refine ⟨le_min (by norm_num) ?_,
    le_trans (min_le_left _ _) (by norm_num)⟩
  refine add_nonneg (add_nonneg ?_ ?_) (by positivity)
  · split_ifs <;> norm_num
  · split_ifs <;> norm_num

theorem calculate_rouge_scores_bounds (env : NlpEnv)
    (generated_text reference_text : Text)
    (hr : env.rouge_bounded) :
    (0 ≤ (calculate_rouge_scores env generated_text
        reference_text).1 ∧
      (calculate_rouge_scores env generated_text reference_text).1 ≤
        1) ∧
    (0 ≤ (calculate_rouge_scores env generated_text
        reference_text).2.2 ∧
      (calculate_rouge_scores env generated_text
        reference_text).2.2 ≤ 1) := by
  unfold calculate_rouge_scores
  split
  · rename_i r1 r2 rL hpkg
    obtain ⟨h1, h2, _, _, h5, h6⟩ := hr _ _ _ _ _ hpkg
    exact ⟨⟨round3_nonneg h1, round3_le_one h2⟩,
      ⟨round3_nonneg h5, round3_le_one h6⟩⟩
  · dsimp only
    by_cases hne :
        ((splitWs (toLowerText reference_text)).dedup).isEmpty = true
    · rw [if_pos hne]
      norm_num
    · rw [if_neg hne]
      have hpos : (0 : ℚ) <
          ((splitWs (toLowerText reference_text)).dedup).length := by
        have hnil :
            ((splitWs (toLowerText reference_text)).dedup) ≠ [] := by
          intro hcon
          simp [hcon] at hne
        exact_mod_cast List.length_pos.mpr hnil
      have hr1 : (0 : ℚ) ≤
          ((((splitWs (toLowerText reference_text)).dedup).filter
            (fun w => (splitWs (toLowerText
              generated_text)).dedup.contains w)).length : ℚ) /
            ((splitWs (toLowerText reference_text)).dedup).length :=
        div_nonneg (by positivity) (by positivity)
      have hr2 : ((((splitWs (toLowerText
            reference_text)).dedup).filter
            (fun w => (splitWs (toLowerText
              generated_text)).dedup.contains w)).length : ℚ) /
            ((splitWs (toLowerText reference_text)).dedup).length ≤
          1 := by
        rw [div_le_one hpos]
        exact_mod_cast List.length_filter_le _ _
      exact ⟨⟨round3_nonneg hr1, round3_le_one hr2⟩,
        ⟨round3_nonneg (by nlinarith), round3_le_one (by nlinarith)⟩⟩

theorem le_foldl_max (l : List ℚ) (a : ℚ) : a ≤ l.foldl max a := by
  induction l generalizing a with
  | nil => simp
  | cons x t ih => exact le_trans (le_max_left a x) (ih _)

theorem foldl_max_le (l : List ℚ) (a : ℚ) (ha : a ≤ 1)
    (h : ∀ x ∈ l, x ≤ 1) : l.foldl max a ≤ 1 := by
  induction l generalizing a with
  | nil => simpa
  | cons x t ih =>
    exact ih _ (max_le ha (h x (List.mem_cons_self x t)))
      (fun y hy => h y (List.mem_cons_of_mem x hy))

theorem calculate_bleu_score_bounds (generated_text : Text)
    (reference_texts : List Text) :
    0 ≤ calculate_bleu_score generated_text reference_texts ∧
    calculate_bleu_score generated_text reference_texts ≤ 1 := by
  unfold calculate_bleu_score
  dsimp only
  by_cases hgne : (splitWs (toLowerText generated_text)).isEmpty = true
  · rw [if_pos hgne]
    norm_num
  · rw [if_neg hgne]
    refine ⟨le_foldl_max _ 0, foldl_max_le _ 0 (by norm_num) ?_⟩
    intro x hx
    rcases List.mem_filterMap.mp hx with ⟨ref, _, href⟩
    by_cases hrne : (splitWs (toLowerText ref)).isEmpty = true
    · rw [if_pos hrne] at href
      cases href
    · rw [if_neg hrne] at href
      have hgpos : (0 : ℚ) <
          (splitWs (toLowerText generated_text)).length := by
        have : splitWs (toLowerText generated_text) ≠ [] := by
          intro hcon
          simp [List.isEmpty_iff, hcon] at hgne
        exact_mod_cast List.length_pos.mpr this
      rw [← Option.some.inj href, div_le_one hgpos]
      exact_mod_cast List.countP_le_length _

theorem f1_metrics_bounds (predicted reference : ℚ) :
    0 ≤ (evaluate_answer_quality_metrics predicted
        reference).f1_score ∧
    (evaluate_answer_quality_metrics predicted reference).f1_score ≤
      1 := by
  unfold evaluate_answer_quality_metrics
  dsimp only
  constructor
  · apply round3_nonneg; split_ifs <;> norm_num
  · apply round3_le_one; split_ifs <;> norm_num

theorem composite_nlp_score_bounds (env : NlpEnv) (q : Question)
    (user_answer : Text) (hr : env.rouge_bounded) :
    0 ≤ (calculate_advanced_nlp_metrics env q
        user_answer).composite_nlp_score ∧
    (calculate_advanced_nlp_metrics env q
        user_answer).composite_nlp_score ≤ 1 := by
  unfold calculate_advanced_nlp_metrics
  split
  · norm_num [default_nlp_metrics]
  · dsimp only
    obtain ⟨⟨hr1a, hr1b⟩, hrLa, hrLb⟩ :=
      calculate_rouge_scores_bounds env user_answer _ hr
    obtain ⟨hba, hbb⟩ := calculate_bleu_score_bounds user_answer _
    obtain ⟨hfa, hfb⟩ := f1_metrics_bounds
      (calculate_answer_quality_score env user_answer) 0.8
    constructor
    · apply round3_nonneg
      nlinarith
    · apply round3_le_one
      nlinarith

theorem create_evaluation_result_fields (s k st o : ℚ) (fb : Text)
    (nm : Option NlpMetrics) :
    (create_evaluation_result s k st o fb nm).semantic_score =
        round3 s ∧
    (create_evaluation_result s k st o fb nm).keyword_score =
        round3 k ∧
    (create_evaluation_result s k st o fb nm).structure_score =
        round3 st ∧
    (create_evaluation_result s k st o fb nm).overall_score =
        round3 o ∧
    (create_evaluation_result s k st o fb nm).nlp_metrics = nm :=
  ⟨rfl, rfl, rfl, rfl, rfl⟩

/-- C1: for every question and every answer at least the minimum
length, all four component scores of the evaluation lie in `[0,1]` and
the overall score equals
`0.3·semantic + 0.25·keyword + 0.25·structure + 0.2·composite_nlp`
within rounding tolerance (`1/1000`). -/
theorem evaluate_answer_scores_bounded (env : NlpEnv) (q : Question)
    (user_answer : Text) (hr : env.rouge_bounded)
    (hlen : MIN_ANSWER_LENGTH ≤ (stripText user_answer).length) :
    ∃ nm : NlpMetrics,
      (evaluate_answer env q user_answer).nlp_metrics = some nm ∧
      (0 ≤ (evaluate_answer env q user_answer).semantic_score ∧
        (evaluate_answer env q user_answer).semantic_score ≤ 1) ∧
      (0 ≤ (evaluate_answer env q user_answer).keyword_score ∧
        (evaluate_answer env q user_answer).keyword_score ≤ 1) ∧
      (0 ≤ (evaluate_answer env q user_answer).structure_score ∧
        (evaluate_answer env q user_answer).structure_score ≤ 1) ∧
      (0 ≤ (evaluate_answer env q user_answer).overall_score ∧
        (evaluate_answer env q user_answer).overall_score ≤ 1) ∧
      |(evaluate_answer env q user_answer).overall_score -
          (0.3 * (evaluate_answer env q user_answer).semantic_score +
            0.25 * (evaluate_answer env q user_answer).keyword_score +
            0.25 * (evaluate_answer env q user_answer).structure_score +
            0.2 * nm.composite_nlp_score)| ≤ 1/1000 := by
  have hnot : ¬((stripText user_answer).length < MIN_ANSWER_LENGTH) :=
    not_lt.mpr hlen
  have hrw : evaluate_answer env q user_answer =
      create_evaluation_result
        (evaluate_semantic_similarity env q user_answer)
        (evaluate_keyword_coverage env q user_answer)
        (evaluate_answer_structure env user_answer)
        (evaluate_semantic_similarity env q user_answer * 0.3 +
          evaluate_keyword_coverage env q user_answer * 0.25 +
          evaluate_answer_structure env user_answer * 0.25 +
          (calculate_advanced_nlp_metrics env q
            user_answer).composite_nlp_score * 0.2)
        (generate_ai_feedback env q user_answer)
        (some (calculate_advanced_nlp_metrics env q user_answer)) := by
    unfold evaluate_answer
    rw [if_neg hnot]
  rw [hrw]
  obtain ⟨e1, e2, e3, e4, e5⟩ := create_evaluation_result_fields
    (evaluate_semantic_similarity env q user_answer)
    (evaluate_keyword_coverage env q user_answer)
    (evaluate_answer_structure env user_answer)
    (evaluate_semantic_similarity env q user_answer * 0.3 +
      evaluate_keyword_coverage env q user_answer * 0.25 +
      evaluate_answer_structure env user_answer * 0.25 +
      (calculate_advanced_nlp_metrics env q
        user_answer).composite_nlp_score * 0.2)
    (generate_ai_feedback env q user_answer)
    (some (calculate_advanced_nlp_metrics env q user_answer))
  rw [e1, e2, e3, e4, e5]
  obtain ⟨hsa, hsb⟩ := evaluate_semantic_similarity_bounds env q
    user_answer
  obtain ⟨hka, hkb⟩ := evaluate_keyword_coverage_bounds env q
    user_answer
  obtain ⟨hta, htb⟩ := evaluate_answer_structure_bounds env user_answer
  obtain ⟨hca, hcb⟩ := composite_nlp_score_bounds env q user_answer hr
  refine ⟨calculate_advanced_nlp_metrics env q user_answer, rfl,
    ⟨round3_nonneg hsa, round3_le_one hsb⟩,
    ⟨round3_nonneg hka, round3_le_one hkb⟩,
    ⟨round3_nonneg hta, round3_le_one htb⟩,
    ⟨round3_nonneg (by linarith), round3_le_one (by linarith)⟩, ?_⟩
  have d1 := round3_err (evaluate_semantic_similarity env q user_answer)
  have d2 := round3_err (evaluate_keyword_coverage env q user_answer)
  have d3 := round3_err (evaluate_answer_structure env user_answer)
  have d4 := round3_err
    (evaluate_semantic_similarity env q user_answer * 0.3 +
      evaluate_keyword_coverage env q user_answer * 0.25 +
      evaluate_answer_structure env user_answer * 0.25 +
      (calculate_advanced_nlp_metrics env q
        user_answer).composite_nlp_score * 0.2)
  rw [abs_le] at d1 d2 d3 d4 ⊢
  constructor
  · linarith [d1.1, d1.2, d2.1, d2.2, d3.1, d3.2, d4.1, d4.2]
  · linarith [d1.1, d1.2, d2.1, d2.2, d3.1, d3.2, d4.1, d4.2]

/-- The default environment has no rouge-score package, so its outputs
are vacuously bounded. -/
theorem defaultNlpEnv_rouge_bounded : defaultNlpEnv.rouge_bounded := by
  intro r g x y z h
  simp [defaultNlpEnv] at h

/-- A concrete answer above the minimum length. -/
def answerRest : Text :=
  s2t "I used a REST api to fetch data, which improved performance."

/-- C1 witness. -/
theorem evaluate_answer_scores_bounded_witness :
    MIN_ANSWER_LENGTH ≤ (stripText answerRest).length ∧
    ∃ nm : NlpMetrics,
      (evaluate_answer defaultNlpEnv qKeywords
        answerRest).nlp_metrics = some nm ∧
      (0 ≤ (evaluate_answer defaultNlpEnv qKeywords
          answerRest).semantic_score ∧
        (evaluate_answer defaultNlpEnv qKeywords
          answerRest).semantic_score ≤ 1) ∧
      (0 ≤ (evaluate_answer defaultNlpEnv qKeywords
          answerRest).keyword_score ∧
        (evaluate_answer defaultNlpEnv qKeywords
          answerRest).keyword_score ≤ 1) ∧
      (0 ≤ (evaluate_answer defaultNlpEnv qKeywords
          answerRest).structure_score ∧
        (evaluate_answer defaultNlpEnv qKeywords
          answerRest).structure_score ≤ 1) ∧
      (0 ≤ (evaluate_answer defaultNlpEnv qKeywords
          answerRest).overall_score ∧
        (evaluate_answer defaultNlpEnv qKeywords
          answerRest).overall_score ≤ 1) ∧
      |(evaluate_answer defaultNlpEnv qKeywords
          answerRest).overall_score -
          (0.3 * (evaluate_answer defaultNlpEnv qKeywords
            answerRest).semantic_score +
            0.25 * (evaluate_answer defaultNlpEnv qKeywords
              answerRest).keyword_score +
            0.25 * (evaluate_answer defaultNlpEnv qKeywords
              answerRest).structure_score +
            0.2 * nm.composite_nlp_score)| ≤ 1/1000 :=
  ⟨by decide,
   evaluate_answer_scores_bounded defaultNlpEnv qKeywords answerRest
     defaultNlpEnv_rouge_bounded (by decide)⟩

/-- C5 amended: on a successful `process_answer` whose new cursor is
still below the question count, the result carries the next question,
the evaluation of the current question, and a progress record with
`percentage = 100·cursor/total`; a follow-up (elaboration) question is
generated exactly when the overall score is below 0.5 — no
encouragement prompt is ever produced, because `process_answer` only
invokes the follow-up generator on the below-0.5 branch, leaving its
above-0.8 encouragement branch unreachable. -/
theorem process_answer_midsession (nenv : NlpEnv) (m : Manager)
    (session_id : Nat) (answer : Text) (s : SessionState)
    (hs : m.lookup_session session_id = some s)
    (h' : s.current_question_index + 1 < s.questions.length) :
    ∃ fu, (process_answer nenv m session_id answer).1 =
      .question_answered
        (evaluate_answer nenv
          (s.questions.get
            ⟨s.current_question_index, Nat.lt_of_succ_lt h'⟩) answer)
        (s.questions.get ⟨s.current_question_index + 1, h'⟩) fu
        { current := s.current_question_index + 1
          total := s.questions.length
          percentage := ((s.current_question_index + 1 : ℚ) /
            s.questions.length) * 100 } ∧
      (fu.isSome ↔
        (evaluate_answer nenv
          (s.questions.get
            ⟨s.current_question_index, Nat.lt_of_succ_lt h'⟩)
          answer).overall_score < 0.5) := by
  have h : s.current_question_index < s.questions.length :=
    Nat.lt_of_succ_lt h'
  unfold process_answer
  simp only [hs]
  rw [dif_pos h, dif_pos h']
  refine ⟨if (evaluate_answer nenv
      (s.questions.get ⟨s.current_question_index, h⟩)
      answer).overall_score < 0.5 then
        generate_followup_question
          (s.questions.get ⟨s.current_question_index, h⟩).question
          answer
          (evaluate_answer nenv
            (s.questions.get ⟨s.current_question_index, h⟩)
            answer).overall_score
      else none, rfl, ?_⟩
  by_cases hov : (evaluate_answer nenv
      (s.questions.get ⟨s.current_question_index, h⟩)
      answer).overall_score < 0.5
  · rw [if_pos hov]
    unfold generate_followup_question
    rw [if_pos hov]
    simpa using hov
  · rw [if_neg hov]
    simpa using hov

/-- A two-question session at its first question. -/
def sessTwoQ : SessionState :=
  { session_id := 1, user_id := 1, domain := "Software Engineering",
    questions := [qKeywords, qDummy], current_question_index := 0,
    answers := [], evaluations := [],
    session_preferences := prefsDefault, status := "active" }

def mgrTwoQ : Manager :=
  { db := emptyDb, current_sessions := [(1, sessTwoQ)] }

/-- C5 witness. -/
theorem process_answer_midsession_witness :
    mgrTwoQ.lookup_session 1 = some sessTwoQ ∧
    ∃ fu, (process_answer defaultNlpEnv mgrTwoQ 1 []).1 =
      .question_answered
        (evaluate_answer defaultNlpEnv
          (sessTwoQ.questions.get
            ⟨sessTwoQ.current_question_index, by decide⟩) [])
        (sessTwoQ.questions.get
          ⟨sessTwoQ.current_question_index + 1, by decide⟩) fu
        { current := sessTwoQ.current_question_index + 1
          total := sessTwoQ.questions.length
          percentage := ((sessTwoQ.current_question_index + 1 : ℚ) /
            sessTwoQ.questions.length) * 100 } ∧
      (fu.isSome ↔
        (evaluate_answer defaultNlpEnv
          (sessTwoQ.questions.get
            ⟨sessTwoQ.current_question_index, by decide⟩)
          []).overall_score < 0.5) :=
  ⟨rfl,
   process_answer_midsession defaultNlpEnv mgrTwoQ 1 [] sessTwoQ rfl
     (by decide)⟩

/-- An environment whose similarity oracle reports a perfect match and
whose advanced-metrics step hits its exception fallback. -/
def envHigh : NlpEnv :=
  { defaultNlpEnv with
      tfidf_cosine := fun _ _ => some 1
      advanced_metrics_exception := true }

/-- A well-structured answer mentioning both expected keywords. -/
def answerHigh : Text :=
  s2t "First, I used the rest api carefully. However, the data layer was slow, for example the cache missed often. Overall, we improved latency by tuning indexes, adding metrics, and testing each service release."

/-- A two-question session (expecting keywords) at its first
question. -/
def sessHigh : SessionState :=
  { session_id := 1, user_id := 1, domain := "Software Engineering",
    questions := [qKeywords, qDummy], current_question_index := 0,
    answers := [], evaluations := [],
    session_preferences := prefsDefault, status := "active" }

def mgrHigh : Manager :=
  { db := emptyDb, current_sessions := [(1, sessHigh)] }

/-- The follow-up of a mid-session `process_answer` result. -/
def followupOf : ProcessResult → Option (Option Text)
  | .question_answered _ _ fu _ => some fu
  | _ => none

/-- The overall score of a mid-session `process_answer` result. -/
def overallOf : ProcessResult → Option ℚ
  | .question_answered ev _ _ _ => some ev.overall_score
  | _ => none

set_option maxRecDepth 8192 in
theorem evaluate_answer_high_overall :
    (evaluate_answer envHigh qKeywords answerHigh).overall_score =
      9/10 := by
  have hsem : evaluate_semantic_similarity envHigh qKeywords
      answerHigh = 1 := by
    unfold evaluate_semantic_similarity
    rw [if_neg (by decide)]
    dsimp only [envHigh]
    norm_num
  have hc : qKeywords.expected_keywords.countP
      (keywordMatches envHigh (toLowerText answerHigh)) = 2 := by
    decide
  have hkw : evaluate_keyword_coverage envHigh qKeywords answerHigh =
      1 := by
    unfold evaluate_keyword_coverage
    rw [if_neg (by decide)]
    dsimp only
    rw [hc, show qKeywords.expected_keywords.length = 2 from rfl]
    norm_num
  have h1 : (envHigh.sent_tokenize answerHigh).length = 3 := by decide
  have h2 : ((envHigh.word_tokenize answerHigh).filter
      isAlnumText).length = 33 := by decide
  have h3 : structure_indicators.countP (fun phrases =>
      phrases.any (fun p =>
        wordBoundaryOccurs p (toLowerText answerHigh))) = 4 := by
    decide
  have hst : evaluate_answer_structure envHigh answerHigh = 1 := by
    unfold evaluate_answer_structure
    dsimp only
    rw [h1, h2, h3]
    norm_num
  have hnlp : calculate_advanced_nlp_metrics envHigh qKeywords
      answerHigh = default_nlp_metrics := by
    unfold calculate_advanced_nlp_metrics
    rw [if_pos (show envHigh.advanced_metrics_exception = true from
      rfl)]
  unfold evaluate_answer
  rw [if_neg (by decide)]
  rw [hsem, hkw, hst, hnlp]
  rw [(create_evaluation_result_fields 1 1 1
    (1 * 0.3 + 1 * 0.25 + 1 * 0.25 +
      default_nlp_metrics.composite_nlp_score * 0.2)
    (generate_ai_feedback envHigh qKeywords answerHigh)
    (some default_nlp_metrics)).2.2.2.1]
  rw [show (1 * 0.3 + 1 * 0.25 + 1 * 0.25 +
      default_nlp_metrics.composite_nlp_score * 0.2 : ℚ) = 9/10 by
    norm_num [default_nlp_metrics]]
  rw [round3_spec (9/10) 900 (by norm_num) (by norm_num)]
  norm_num

/-- C5 counterexample: a `process_answer` call whose answer scores 0.9
overall (strictly above 0.8) returns no follow-up at all — the claimed
encouragement prompt is never produced. -/
theorem high_score_gets_no_followup :
    overallOf (process_answer envHigh mgrHigh 1 answerHigh).1 =
      some (9/10) ∧
    (0.8 : ℚ) < 9/10 ∧
    followupOf (process_answer envHigh mgrHigh 1 answerHigh).1 =
      some none := by
  have hlook : mgrHigh.lookup_session 1 = some sessHigh := rfl
  have hq0 : sessHigh.questions.get
      ⟨sessHigh.current_question_index, by decide⟩ = qKeywords := rfl
  unfold process_answer
  simp only [hlook]
  rw [dif_pos (show sessHigh.current_question_index <
    sessHigh.questions.length by decide)]
  rw [dif_pos (show sessHigh.current_question_index + 1 <
    sessHigh.questions.length by decide)]
  rw [hq0, evaluate_answer_high_overall]
  refine ⟨?_, by norm_num, ?_⟩
  · rw [overallOf]
    rw [evaluate_answer_high_overall]
  · rw [if_neg (by norm_num)]
    rfl

end InterviewBot
